import Mathlib

/-!
Verification development for the TradeSeeker / nof1ai trading engine.

Shallow embedding of the Python sources in `src/TradeSeeker/alpha_arena_deepseekold.py`,
`src/nof1ai/backtest.py` and `src/nof1ai/utils.py`.  Floating point arithmetic is
modelled over `ℚ`; Python dict lookups with defaults become `Option` or plain fields;
effectful calls (market data fetches, config lookups) become explicit inputs.  A raised
exception is modelled with `Except`/`Option` where the source catches it.
-/

/- ===================== Config constants (src/TradeSeeker/config.py) ===================== -/

/-- Config.MIN_CONFIDENCE, default 0.4. -/
def MIN_CONFIDENCE : ℚ := 2/5

/-- Config.MIN_POSITION_MARGIN_USD, default 15.0. -/
def MIN_POSITION_MARGIN_USD : ℚ := 15

/-- Config.MAX_LEVERAGE, default 20. -/
def MAX_LEVERAGE : ℤ := 20

/-- Config.EMA_NEUTRAL_BAND_PCT, default 0.0015. -/
def EMA_NEUTRAL_BAND_PCT : ℚ := 15/10000

/-- Config.INTRADAY_NEUTRAL_RSI_HIGH, default 60.0. -/
def INTRADAY_NEUTRAL_RSI_HIGH : ℚ := 60

/-- Config.INTRADAY_NEUTRAL_RSI_LOW, default 40.0. -/
def INTRADAY_NEUTRAL_RSI_LOW : ℚ := 40

/-- PortfolioManager.trend_flip_cooldown (alpha_arena_deepseekold.py line 616). -/
def TREND_FLIP_COOLDOWN : ℤ := 3

/- ===================== Core data types ===================== -/

/-- Position direction. -/
inductive Direction
  | long
  | short
  deriving DecidableEq, Repr

/-- The signals recognised by PortfolioManager.execute_decision. -/
inductive Signal
  | buyToEnter
  | sellToEnter
  | holdSignal
  | closeSignal
  | unknown
  deriving DecidableEq, Repr

/-- Exit plan attached to a position (profit_target / stop_loss may be null). -/
structure ExitPlan where
  profitTarget : Option ℚ
  stopLoss : Option ℚ
  deriving DecidableEq, Repr

/-- A position dict as built at alpha_arena_deepseekold.py lines 1952-1962 (the
fields the modelled code paths read). -/
structure Position where
  symbol : String
  direction : Direction
  quantity : ℚ
  entryPrice : ℚ
  currentPrice : ℚ
  unrealizedPnl : ℚ
  notionalUsd : ℚ
  marginUsd : ℚ
  leverage : ℤ
  confidence : ℚ
  lossCycleCount : ℕ
  exitPlan : ExitPlan
  deriving DecidableEq, Repr

/-- An AI decision dict (the keys read by the engine on the modelled paths). -/
structure Decision where
  signal : Signal
  leverage : Option ℤ
  confidence : Option ℚ
  profitTarget : Option ℚ
  stopLoss : Option ℚ
  justification : Option String
  deriving DecidableEq, Repr

/-- Realized pnl of closing `quantity` units at `price`, as computed throughout the
source (long: (price - entry) * qty, short: (entry - price) * qty). -/
def realizedPnl (direction : Direction) (entry price quantity : ℚ) : ℚ :=
  match direction with
  | .long => (price - entry) * quantity
  | .short => (entry - price) * quantity

/- ===================== Exit monitor (PortfolioManager, lines 949-1312) ===================== -/

/-- Result of PortfolioManager.get_profit_levels_by_notional (lines 1110-1171). -/
structure ProfitLevels where
  level1 : ℚ
  level2 : ℚ
  level3 : ℚ
  take1 : ℚ
  take2 : ℚ
  take3 : ℚ
  deriving DecidableEq, Repr

/-- PortfolioManager.get_profit_levels_by_notional (lines 1110-1171). -/
def getProfitLevelsByNotional (notionalUsd : ℚ) : ProfitLevels :=
  if notionalUsd < 150 then ⟨7/1000, 9/1000, 11/1000, 1/4, 1/2, 3/4⟩
  else if notionalUsd < 300 then ⟨7/1000, 9/1000, 11/1000, 1/4, 1/2, 3/4⟩
  else if notionalUsd < 400 then ⟨6/1000, 8/1000, 1/100, 1/4, 1/2, 3/4⟩
  else if notionalUsd < 500 then ⟨5/1000, 7/1000, 9/1000, 1/4, 1/2, 3/4⟩
  else if notionalUsd < 600 then ⟨1/250, 6/1000, 8/1000, 1/4, 1/2, 3/4⟩
  else ⟨3/1000, 5/1000, 7/1000, 1/4, 1/2, 3/4⟩

/-- PortfolioManager._calculate_maximum_limit (lines 1382-1387):
$15 fixed OR 15% of available cash, whichever is larger. -/
def calculateMaximumLimit (currentBalance : ℚ) : ℚ :=
  max 15 (currentBalance * (15/100))

/-- PortfolioManager._adjust_partial_sale_for_max_limit (lines 1390-1414).
Returns (adjusted_percent, force_close); the reason string is dropped. -/
def adjustSaleForMaxLimit (currentBalance currentMargin proposedPercent : ℚ) : ℚ × Bool :=
  let maxLimit := calculateMaximumLimit currentBalance
  if currentMargin ≤ maxLimit then (0, true)
  else
    let remainingAfterProposed := currentMargin * (1 - proposedPercent)
    if remainingAfterProposed ≥ maxLimit then (proposedPercent, false)
    else ((currentMargin - maxLimit) / currentMargin, false)

/-- The exit decision returned by PortfolioManager.enhanced_exit_strategy. -/
inductive ExitAction
  | holdAction
  | closeAction
  | partialCloseAction (percent : ℚ)
  | updateStopAction (newStop : ℚ)
  deriving DecidableEq, Repr

/-- Helper: write a new stop loss into a position's exit plan
(the mutation position['exit_plan']['stop_loss'] = trailing_stop). -/
def setStopLoss (pos : Position) (s : ℚ) : Position :=
  { pos with exitPlan := { pos.exitPlan with stopLoss := some s } }

/-- One branch of the tiered profit-taking chain (the repeated pattern at lines
1240-1260 / 1278-1298): returns `some` exactly when the source `return`s. -/
def profitChainStep (balance : ℚ) (pos : Position) (takePercent : ℚ) :
    Option (ExitAction × Position) :=
  let r := adjustSaleForMaxLimit balance pos.marginUsd takePercent
  if r.2 then some (.closeAction, pos)
  else if r.1 > 0 then some (.partialCloseAction r.1, pos)
  else none

/-- Dynamic trailing stop block for longs (lines 1262-1272). -/
def trailingLong (pos : Position) (price pnlPct : ℚ) (lv : ProfitLevels) :
    ExitAction × Position :=
  if pnlPct ≥ lv.level2 then
    let trailingStop := pos.entryPrice * (1 + lv.level1)
    if price ≥ trailingStop then (.updateStopAction trailingStop, setStopLoss pos trailingStop)
    else (.holdAction, pos)
  else if pnlPct ≥ lv.level1 then
    let trailingStop := pos.entryPrice * (1 + lv.level1 * (1/2))
    if price ≥ trailingStop then (.updateStopAction trailingStop, setStopLoss pos trailingStop)
    else (.holdAction, pos)
  else (.holdAction, pos)

/-- Dynamic trailing stop block for shorts (lines 1300-1310). -/
def trailingShort (pos : Position) (price pnlPct : ℚ) (lv : ProfitLevels) :
    ExitAction × Position :=
  if pnlPct ≥ lv.level2 then
    let trailingStop := pos.entryPrice * (1 - lv.level1)
    if price ≤ trailingStop then (.updateStopAction trailingStop, setStopLoss pos trailingStop)
    else (.holdAction, pos)
  else if pnlPct ≥ lv.level1 then
    let trailingStop := pos.entryPrice * (1 - lv.level1 * (1/2))
    if price ≤ trailingStop then (.updateStopAction trailingStop, setStopLoss pos trailingStop)
    else (.holdAction, pos)
  else (.holdAction, pos)

/-- The long branch of enhanced_exit_strategy (lines 1236-1272): tiered
profit taking, falling through to the trailing-stop block when a chain branch
does not return. -/
def exitLongBranch (balance : ℚ) (pos : Position) (price : ℚ) (lv : ProfitLevels) :
    ExitAction × Position :=
  let pnlPct := (price - pos.entryPrice) / pos.entryPrice
  if pnlPct ≥ lv.level3 then
    match profitChainStep balance pos lv.take3 with
    | some r => r
    | none => trailingLong pos price pnlPct lv
  else if pnlPct ≥ lv.level2 then
    match profitChainStep balance pos lv.take2 with
    | some r => r
    | none => trailingLong pos price pnlPct lv
  else if pnlPct ≥ lv.level1 then
    match profitChainStep balance pos lv.take1 with
    | some r => r
    | none => trailingLong pos price pnlPct lv
  else trailingLong pos price pnlPct lv

/-- The short branch of enhanced_exit_strategy (lines 1274-1310). -/
def exitShortBranch (balance : ℚ) (pos : Position) (price : ℚ) (lv : ProfitLevels) :
    ExitAction × Position :=
  let pnlPct := (pos.entryPrice - price) / pos.entryPrice
  if pnlPct ≥ lv.level3 then
    match profitChainStep balance pos lv.take3 with
    | some r => r
    | none => trailingShort pos price pnlPct lv
  else if pnlPct ≥ lv.level2 then
    match profitChainStep balance pos lv.take2 with
    | some r => r
    | none => trailingShort pos price pnlPct lv
  else if pnlPct ≥ lv.level1 then
    match profitChainStep balance pos lv.take1 with
    | some r => r
    | none => trailingShort pos price pnlPct lv
  else trailingShort pos price pnlPct lv

/-- PortfolioManager.enhanced_exit_strategy (lines 1184-1312).  Returns the exit
decision together with the (possibly stop-updated) position.  `balance` is
self.current_balance, read by the maximum-limit rule. -/
def enhancedExitStrategy (balance : ℚ) (pos : Position) (price : ℚ) :
    ExitAction × Position :=
  if pos.lossCycleCount ≥ 10 ∧ pos.unrealizedPnl ≤ 0 then (.closeAction, pos)
  else
    let marginUsed := pos.marginUsd
    let lossMultiplier : ℚ :=
      if marginUsed < 30 then 8/100
      else if marginUsed < 40 then 7/100
      else if marginUsed < 50 then 6/100
      else 5/100
    let lossThreshold := marginUsed * lossMultiplier
    let unrealizedLoss :=
      match pos.direction with
      | .long => max 0 ((pos.entryPrice - price) * pos.quantity)
      | .short => max 0 ((price - pos.entryPrice) * pos.quantity)
    if unrealizedLoss ≥ lossThreshold ∧ lossThreshold > 0 then (.closeAction, pos)
    else
      let lv := getProfitLevelsByNotional pos.notionalUsd
      match pos.direction with
      | .long => exitLongBranch balance pos price lv
      | .short => exitShortBranch balance pos price lv

/-- What happened during one loop iteration of check_and_execute_tp_sl. -/
inductive TpSlEvent
  | enhancedClose
  | partialClosed (percent pnl : ℚ)
  | stopUpdated (newStop : ℚ)
  | tpHit (pnl : ℚ)
  | slHit (pnl : ℚ)
  | noAction
  deriving DecidableEq, Repr

/-- State after one loop iteration of check_and_execute_tp_sl for one coin:
the cash balance, the surviving position (none when fully closed), and the event. -/
structure TpSlStepResult where
  balance : ℚ
  position : Option Position
  event : TpSlEvent
  deriving DecidableEq, Repr

/-- One iteration of the loop body of PortfolioManager.check_and_execute_tp_sl
(lines 961-1058) for a single position with a valid current price. -/
def tpSlStep (balance : ℚ) (pos : Position) (price : ℚ) : TpSlStepResult :=
  let tp := pos.exitPlan.profitTarget
  let sl := pos.exitPlan.stopLoss
  let marginUsed := pos.marginUsd
  let quantity := pos.quantity
  let ed := enhancedExitStrategy balance pos price
  match ed.1 with
  | .closeAction =>
    let profit := realizedPnl pos.direction pos.entryPrice price quantity
    { balance := balance + (marginUsed + profit), position := none, event := .enhancedClose }
  | .partialCloseAction pct =>
    let closeQuantity := quantity * pct
    let profit := realizedPnl pos.direction pos.entryPrice price closeQuantity
    let pos2 := { ed.2 with quantity := quantity * (1 - pct),
                            marginUsd := marginUsed * (1 - pct),
                            notionalUsd := ed.2.notionalUsd * (1 - pct) }
    { balance := balance + (marginUsed * pct + profit), position := some pos2,
      event := .partialClosed pct profit }
  | .updateStopAction s =>
    { balance := balance, position := some ed.2, event := .stopUpdated s }
  | .holdAction =>
    let tpTriggered : Bool :=
      match tp with
      | some t => decide ((pos.direction = .long ∧ price ≥ t) ∨ (pos.direction = .short ∧ price ≤ t))
      | none => false
    let slTriggered : Bool :=
      match sl with
      | some t => decide ((pos.direction = .long ∧ price ≤ t) ∨ (pos.direction = .short ∧ price ≥ t))
      | none => false
    if tpTriggered then
      let profit := realizedPnl pos.direction pos.entryPrice price quantity
      { balance := balance + (marginUsed + profit), position := none, event := .tpHit profit }
    else if slTriggered then
      let profit := realizedPnl pos.direction pos.entryPrice price quantity
      { balance := balance + (marginUsed + profit), position := none, event := .slHit profit }
    else { balance := balance, position := some ed.2, event := .noAction }

/-- Recognizer: is an exit action a trailing-stop update. -/
def isUpdateStop : ExitAction → Bool
  | .updateStopAction _ => true
  | _ => false

/-- Recognizer: did the step close through the hard TP/SL comparison. -/
def isHardStopEvent : TpSlEvent → Bool
  | .tpHit _ => true
  | .slHit _ => true
  | _ => false

/- ===================== Indicators and trend state ===================== -/

/-- The slice of a get_technical_indicators bundle the modelled code reads.
Fields accessed through .get with an isinstance check are Option; fields read
with a numeric default are plain (volume default 0, avg_volume default 1,
rsi_14 default 50, macd / macd_signal default 0). -/
structure Ind where
  hasError : Bool
  currentPrice : Option ℚ
  ema20 : Option ℚ
  volume : ℚ
  avgVolume : ℚ
  rsi14 : ℚ
  macd : ℚ
  macdSignal : ℚ
  deriving DecidableEq, Repr

/-- Trend classification values used by update_trend_state. -/
inductive Trend
  | bullish
  | bearish
  | neutral
  | unknownTrend
  deriving DecidableEq, Repr

/-- The per-coin record held in PortfolioManager.trend_state. -/
structure TrendRecord where
  trend : Trend
  lastFlipCycle : ℤ
  deriving DecidableEq, Repr

/-- The dict returned by update_trend_state. -/
structure TrendInfo where
  trend : Trend
  recentFlip : Bool
  lastFlipCycle : Option ℤ
  deriving DecidableEq, Repr

/-- PortfolioManager.update_trend_state (lines 784-832).  `prev` is the coin's
current trend_state record (none when the coin was never seen); `cycle` is
self.current_cycle_number. -/
def updateTrendState (prev : Option TrendRecord) (cycle : ℤ) (i4 i3 : Ind) : TrendInfo :=
  match i4.currentPrice, i4.ema20 with
  | some p4, some e4 =>
    if e4 = 0 then ⟨.unknownTrend, false, none⟩
    else
      let delta := (p4 - e4) / e4
      let t0 : Trend :=
        if |delta| ≤ EMA_NEUTRAL_BAND_PCT then .neutral
        else if delta > 0 then .bullish else .bearish
      let t1 : Trend :=
        if i3.hasError then t0
        else
          match i3.currentPrice, (match i3.ema20 with | some e => some e | none => i3.currentPrice) with
          | some p3, some e3 =>
            let intraday : Trend := if p3 ≥ e3 then .bullish else .bearish
            if t0 = .bearish ∧ intraday = .bullish ∧ i3.rsi14 ≥ INTRADAY_NEUTRAL_RSI_HIGH then .neutral
            else if t0 = .bullish ∧ intraday = .bearish ∧ i3.rsi14 ≤ INTRADAY_NEUTRAL_RSI_LOW then .neutral
            else t0
          | _, _ => t0
      let record := prev.getD ⟨t1, cycle⟩
      if record.trend ≠ t1 then
        if t1 ≠ .neutral then ⟨t1, true, some cycle⟩
        else ⟨t1, false, some record.lastFlipCycle⟩
      else
        let lastFlip := record.lastFlipCycle
        ⟨t1, decide (t1 ≠ .neutral ∧ cycle - lastFlip ≤ TREND_FLIP_COOLDOWN), some lastFlip⟩
  | _, _ => ⟨.unknownTrend, false, none⟩

/-- Rolling directional-bias aggregates for one side, as produced by
get_directional_bias_metrics (the two fields apply_directional_bias reads). -/
structure BiasStats where
  rollingAvg : ℚ
  consecutiveLosses : ℕ
  deriving DecidableEq, Repr

/-- PortfolioManager.apply_directional_bias (lines 738-765).  The source reads
Config.DIRECTIONAL_NEUTRAL_CONFIDENCE_MODIFIER (line 754) and
Config.DIRECTIONAL_CONFLICT_CONFIDENCE_MODIFIER (line 760); neither attribute
exists in src/TradeSeeker/config.py, so those two branches raise AttributeError
in Python.  The raise is modelled as `Except.error ()`. -/
def applyDirectionalBias (signal : Signal) (confidence : ℚ) (stats : Option BiasStats)
    (currentTrend : Trend) : Except Unit ℚ :=
  match stats with
  | none => .ok confidence
  | some st =>
    let side : Direction := if signal = .buyToEnter then .long else .short
    let adj1 := if st.consecutiveLosses ≥ 3 then confidence * (9/10) else confidence
    if currentTrend = .neutral then .error ()
    else
      let isAligned : Bool :=
        decide ((currentTrend = .bullish ∧ side = .long) ∨ (currentTrend = .bearish ∧ side = .short))
      if isAligned ∧ st.rollingAvg > 0 then
        let adj2 := min 1 (adj1 * (105/100))
        .ok (if st.rollingAvg < 0 then adj2 * (93/100) else adj2)
      else if ¬ isAligned ∧ (currentTrend = .bullish ∨ currentTrend = .bearish) then .error ()
      else .ok (if st.rollingAvg < 0 then adj1 * (93/100) else adj1)

/-- PortfolioManager._is_counter_trend_trade (lines 1442-1469).  The 3m trend is
computed before the signal checks, so a missing 3m price/EMA raises TypeError,
caught by the handler which returns False; hence all four values must be
present. -/
def isCounterTrendTrade (signal : Signal) (i3 i4 : Ind) : Bool :=
  if i3.hasError || i4.hasError then false
  else
    match i4.currentPrice, i4.ema20, i3.currentPrice, i3.ema20 with
    | some p4, some e4, some p3, some e3 =>
      let trend4Bullish : Bool := decide (p4 > e4)
      let _trend3Bullish : Bool := decide (p3 > e3)
      if signal = .buyToEnter ∧ trend4Bullish = false then true
      else if signal = .sellToEnter ∧ trend4Bullish = true then true
      else false
    | _, _, _, _ => false

/-- Result of validate_counter_trade (valid flag and total_conditions count). -/
structure CounterValidation where
  valid : Bool
  totalConditions : ℕ
  deriving DecidableEq, Repr

/-- Volume ratio as computed at line 1809 (`volume / avg_volume if avg_volume and
avg_volume > 0 else 0`); the validate_counter_trade guard at line 1510 is the
same predicate. -/
def volumeRatioOf (i : Ind) : ℚ :=
  if i.avgVolume > 0 then i.volume / i.avgVolume else 0

/-- PortfolioManager.validate_counter_trade (lines 1487-1549).  On indicator
error the source returns a dict without total_conditions; modelled as count 0. -/
def validateCounterTrade (signal : Signal) (i3 i4 : Ind) : CounterValidation :=
  if i3.hasError || i4.hasError then ⟨false, 0⟩
  else
    let c1 : Bool :=
      match i3.currentPrice, i3.ema20 with
      | some p3, some e3 =>
        decide ((signal = .buyToEnter ∧ p3 > e3) ∨ (signal = .sellToEnter ∧ p3 < e3))
      | _, _ => false
    let c2 : Bool := decide (volumeRatioOf i3 > 3/2)
    let c3 : Bool :=
      decide ((signal = .buyToEnter ∧ i3.rsi14 < 25) ∨ (signal = .sellToEnter ∧ i3.rsi14 > 75))
    let c4 : Bool :=
      match i3.currentPrice, i3.ema20 with
      | some p3, some e3 =>
        if p3 ≠ 0 then decide (|p3 - e3| / p3 * 100 < 1) else false
      | _, _ => false
    let c5 : Bool :=
      decide ((signal = .buyToEnter ∧ i3.macd > i3.macdSignal) ∨
              (signal = .sellToEnter ∧ i3.macd < i3.macdSignal))
    let count := (if c1 then 1 else 0) + (if c2 then 1 else 0) + (if c3 then 1 else 0) +
                 (if c4 then 1 else 0) + (if c5 then 1 else 0)
    ⟨decide (count ≥ 3), count⟩

/-- The trend_aligned test of the trend-following path (lines 1871-1877). -/
def trendAligned (signal : Signal) (i3 i4 : Ind) : Bool :=
  match i4.currentPrice, i4.ema20, i3.currentPrice, i3.ema20 with
  | some p4, some e4, some p3, some e3 =>
    decide ((signal = .buyToEnter ∧ p4 ≥ e4 ∧ p3 ≥ e3) ∨
            (signal = .sellToEnter ∧ p4 ≤ e4 ∧ p3 ≤ e3))
  | _, _, _, _ => false

/-- The trend-following adjustment (lines 1865-1891): returns the adjusted
confidence and the partial_margin_factor (initialised 1.0 at line 1759,
set to 0.5 at line 1881). -/
def trendFollowingAdjust (signal : Signal) (i3 i4 : Ind) (volumeRatio confidence : ℚ) :
    ℚ × ℚ :=
  if trendAligned signal i3 i4 then
    if volumeRatio ≥ 1/2 then
      let pmf : ℚ := if volumeRatio < 4/5 then 1/2 else 1
      let boosted := min 1 (confidence + 5/100)
      (if boosted > confidence then boosted else confidence, pmf)
    else (confidence, 1)
  else (confidence, 1)

/-- The low-volume penalty step (lines 1810-1817): none = veto (continue). -/
def volumePenalty (confidence volumeRatio : ℚ) : Option ℚ :=
  if volumeRatio < 3/10 then
    let penalized := confidence * (7/10)
    if penalized < MIN_CONFIDENCE then none else some penalized
  else some confidence

/-- Confidence normalisation at lines 1726 and 1749: default 0.5, and reset to
0.5 when outside [0, 1]. -/
def normalizeConfidence (c : Option ℚ) : ℚ :=
  let c0 := c.getD (1/2)
  if ¬ (0 ≤ c0 ∧ c0 ≤ 1) then 1/2 else c0

/-- Leverage normalisation at lines 1727-1748: default 8 for None/0, floor 1,
cap Config.MAX_LEVERAGE, then clamp into the [8, 10] entry band. -/
def normalizeLeverage (l : Option ℤ) : ℤ :=
  let l0 : ℤ := match l with | none => 8 | some v => if v = 0 then 8 else v
  let l1 := if l0 < 1 then 1 else l0
  let l2 := if l1 > MAX_LEVERAGE then MAX_LEVERAGE else l1
  if l2 < 8 then 8 else if l2 > 10 then 10 else l2

/-- Overall market regime (detect_market_regime_overall returns one of these). -/
inductive MarketRegime
  | bullishRegime
  | bearishRegime
  | neutralRegime
  deriving DecidableEq, Repr

/-- Config.MARKET_REGIME_MULTIPLIERS.get(regime, 1.0). -/
def marketRegimeMultiplier : MarketRegime → ℚ
  | .bullishRegime => 1
  | .bearishRegime => 4/5
  | .neutralRegime => 9/10

/-- PortfolioManager.calculate_confidence_based_margin (lines 1570-1579). -/
def calculateConfidenceBasedMargin (confidence availableCash : ℚ) : ℚ :=
  max (availableCash * (2/5) * confidence) MIN_POSITION_MARGIN_USD

/-- PortfolioManager.count_positions_by_direction (lines 730-736), for one side. -/
def countPositionsByDirection (positions : List (String × Position)) (d : Direction) : ℕ :=
  (positions.filter (fun p => p.2.direction = d)).length

/- ===================== Risk manager (src/nof1ai/backtest.py) ===================== -/

/-- AdvancedRiskManager.max_portfolio_risk for Config.RISK_LEVEL = 'medium'
(the default; backtest.py lines 294-311). -/
def maxPortfolioRisk : ℚ := 8/100

/-- Sum of notional_usd over open positions. -/
def totalNotional (positions : List (String × Position)) : ℚ :=
  (positions.map (fun p => p.2.notionalUsd)).sum

/-- Sum of margin_usd over open positions. -/
def totalMargin (positions : List (String × Position)) : ℚ :=
  (positions.map (fun p => p.2.marginUsd)).sum

/-- AdvancedRiskManager.check_portfolio_diversification (backtest.py lines
368-420) with max_concentration = None and Config.RISK_LEVEL = 'medium'
(so max_concentration = 0.25).  Note the hardcoded total_balance = 200.0:
dynamic_total_balance = (200 - total_margin) + total_margin.  The new_symbol
argument is only logged, never checked. -/
def checkPortfolioDiversification (positions : List (String × Position))
    (_newSymbol : String) : Bool :=
  if positions.isEmpty then true
  else if totalNotional positions ≤ 0 then true
  else
    let maxConcentration : ℚ := 1/4
    let totalBalance : ℚ := 200
    let currentAvailableBalance := totalBalance - totalMargin positions
    let dynamicTotalBalance := currentAvailableBalance + totalMargin positions
    if dynamicTotalBalance ≤ 0 then true
    else if positions.any (fun p => decide (p.2.marginUsd / dynamicTotalBalance > maxConcentration)) then false
    else if positions.length ≥ 6 then false
    else true

/-- AdvancedRiskManager.calculate_portfolio_risk (backtest.py lines 422-442).
Rational division by zero yields 0, matching only entry_price ≠ 0 inputs of the
source (entry_price = 0 would raise ZeroDivisionError there). -/
def calculatePortfolioRisk (positions : List (String × Position))
    (prices : List (String × ℚ)) : ℚ :=
  if positions.isEmpty then 0
  else
    let total := totalNotional positions
    if total ≤ 0 then 0
    else
      (positions.map (fun p =>
        match prices.lookup p.1 with
        | some currentPrice => |currentPrice - p.2.entryPrice| / p.2.entryPrice * (p.2.notionalUsd / total)
        | none => 0)).sum

/-- The decision dict returned by should_enter_trade (reason strings dropped). -/
structure RiskDecision where
  shouldEnter : Bool
  adjustedNotional : ℚ
  deriving DecidableEq, Repr

/-- The confidence-based notional adjustment at the tail of should_enter_trade
(backtest.py lines 513-519). -/
def adjustNotionalByConfidence (confidence proposedNotional : ℚ) : RiskDecision :=
  if confidence < 3/10 then ⟨true, proposedNotional * (1/2)⟩
  else if confidence > 4/5 then ⟨true, min (proposedNotional * (6/5)) proposedNotional⟩
  else ⟨true, proposedNotional⟩

/-- AdvancedRiskManager.should_enter_trade (backtest.py lines 444-521). -/
def shouldEnterTrade (symbol : String) (positions : List (String × Position))
    (prices : List (String × ℚ)) (confidence proposedNotional currentBalance : ℚ)
    (aiRiskUsd dynamicRiskLimit coinRiskLimitArg : Option ℚ) : RiskDecision :=
  if checkPortfolioDiversification positions symbol = false then ⟨false, proposedNotional⟩
  else if calculatePortfolioRisk positions prices > maxPortfolioRisk then ⟨false, proposedNotional⟩
  else
    let totalRiskLimit := dynamicRiskLimit.getD (currentBalance * (9/10))
    let coinRiskLimit := coinRiskLimitArg.getD (currentBalance * (1/4))
    let currentTotalMargin := totalMargin positions
    let proposedMargin := proposedNotional / 10
    if currentTotalMargin + proposedMargin > totalRiskLimit then ⟨false, proposedNotional⟩
    else if proposedMargin > coinRiskLimit then ⟨false, proposedNotional⟩
    else
      match aiRiskUsd with
      | some r =>
        if r > coinRiskLimit then ⟨false, proposedNotional⟩
        else adjustNotionalByConfidence confidence proposedNotional
      | none => adjustNotionalByConfidence confidence proposedNotional

/- ===================== Entry execution (execute_decision, lines 1706-1992) ===================== -/

/-- Results of the effectful calls inside the entry branch of execute_decision,
made explicit: detect_market_regime_overall, calculate_volume_quality_score,
bias metrics for the two sides, the two indicator bundles, the coin's
trend_state record and current cycle number, should_enhance_short_sizing, and
Config.COIN_SPECIFIC_STOP_LOSS_MULTIPLIERS.get(coin, 1.0). -/
structure EntryEnv where
  marketRegime : MarketRegime
  volumeQualityScore : ℚ
  biasLong : Option BiasStats
  biasShort : Option BiasStats
  indicators3m : Ind
  indicators4h : Ind
  prevTrend : Option TrendRecord
  cycleNumber : ℤ
  enhanceShort : Bool
  stopLossMultiplier : ℚ
  deriving DecidableEq, Repr

/-- Entry direction for a signal (line 1761). -/
def entryDirection (s : Signal) : Direction :=
  if s = .buyToEnter then .long else .short

/-- Dominant direction of the overall market regime (lines 1762-1766). -/
def dominantDirection : MarketRegime → Option Direction
  | .bullishRegime => some .long
  | .bearishRegime => some .short
  | .neutralRegime => none

/-- Why an entry was skipped (each `continue` of the entry branch). -/
inductive VetoReason
  | sameDirectionLimit
  | indicatorError
  | lowVolume
  | counterFloor
  | flipCooldown
  | counterWeak
  | cashFloor
  | riskBlocked
  | marginNonpositive
  | insufficientCash
  deriving DecidableEq, Repr

/-- Outcome of the entry branch for one coin. -/
inductive EntryResult
  | vetoed (reason : VetoReason)
  | opened (newBalance : ℚ) (pos : Position)
  deriving DecidableEq, Repr

/-- Margin sizing, cash-floor check, risk gate and position construction
(lines 1897-1963), shared by all paths out of the try block. -/
def finalizeEntry (env : EntryEnv) (positions : List (String × Position))
    (prices : List (String × ℚ)) (balance : ℚ) (coin : String) (d : Decision)
    (currentPrice : ℚ) (direction : Direction) (leverage : ℤ)
    (confidence partialMarginFactor : ℚ) (stopLoss : Option ℚ) : EntryResult :=
  let calculatedMargin0 := calculateConfidenceBasedMargin confidence balance
  let calculatedMargin1 := calculatedMargin0 * marketRegimeMultiplier env.marketRegime
  let calculatedMargin2 :=
    if partialMarginFactor < 1 then
      max (calculatedMargin1 * partialMarginFactor) MIN_POSITION_MARGIN_USD
    else calculatedMargin1
  let calculatedMargin :=
    if calculatedMargin2 < MIN_POSITION_MARGIN_USD then MIN_POSITION_MARGIN_USD
    else calculatedMargin2
  let minAvailableCash := balance * (1/10)
  if balance - calculatedMargin < minAvailableCash then .vetoed .cashFloor
  else
    let calculatedNotionalUsd := calculatedMargin * (leverage : ℚ)
    if (shouldEnterTrade coin positions prices confidence calculatedNotionalUsd balance
          none none none).shouldEnter = false then .vetoed .riskBlocked
    else
      let notionalUsd := calculatedNotionalUsd
      let marginUsd := notionalUsd / (leverage : ℚ)
      if marginUsd ≤ 0 then .vetoed .marginNonpositive
      else if marginUsd > balance then .vetoed .insufficientCash
      else
        let quantityCoin := notionalUsd / currentPrice
        .opened (balance - marginUsd)
          { symbol := coin
            direction := direction
            quantity := quantityCoin
            entryPrice := currentPrice
            currentPrice := currentPrice
            unrealizedPnl := 0
            notionalUsd := notionalUsd
            marginUsd := marginUsd
            leverage := leverage
            confidence := confidence
            lossCycleCount := 0
            exitPlan := { profitTarget := d.profitTarget, stopLoss := stopLoss } }

/-- The buy_to_enter / sell_to_enter branch of execute_decision (lines
1723-1963), for a coin with a valid price and no open position.  The
should_enhance_short_sizing step (lines 1775-1780) only scales the
trade['quantity_usd'] field, which no later step of this path reads, so it
does not appear in the state.  The AttributeError raised inside
apply_directional_bias is caught by the handler at line 1893, which skips the
rest of the try block (counter-trend gate and trend-following adjustment) and
proceeds to sizing with the pre-bias confidence. -/
def executeEntry (env : EntryEnv) (positions : List (String × Position))
    (prices : List (String × ℚ)) (balance : ℚ) (coin : String) (d : Decision)
    (currentPrice : ℚ) : EntryResult :=
  let confidence0 := normalizeConfidence d.confidence
  let leverage := normalizeLeverage d.leverage
  let confidence1 := min 1 (confidence0 + env.volumeQualityScore / 1000)
  let direction := entryDirection d.signal
  if dominantDirection env.marketRegime = some direction ∧
      countPositionsByDirection positions direction ≥ 4 then
    .vetoed .sameDirectionLimit
  else
    let stopLoss : Option ℚ :=
      match d.stopLoss with
      | none => none
      | some sl =>
        some (if d.signal = .buyToEnter
              then currentPrice - ((currentPrice - sl) * env.stopLossMultiplier)
              else currentPrice + ((sl - currentPrice) * env.stopLossMultiplier))
    if env.indicators3m.hasError || env.indicators4h.hasError then .vetoed .indicatorError
    else
      let i3 := env.indicators3m
      let i4 := env.indicators4h
      let volumeRatio := volumeRatioOf i3
      match volumePenalty confidence1 volumeRatio with
      | none => .vetoed .lowVolume
      | some confidence2 =>
        let trendInfo := updateTrendState env.prevTrend env.cycleNumber i4 i3
        let stats := match direction with | .long => env.biasLong | .short => env.biasShort
        match applyDirectionalBias d.signal confidence2 stats trendInfo.trend with
        | .error _ =>
          finalizeEntry env positions prices balance coin d currentPrice direction leverage
            confidence2 1 stopLoss
        | .ok confidence3 =>
          if isCounterTrendTrade d.signal i3 i4 then
            if confidence3 < 3/4 then .vetoed .counterFloor
            else if trendInfo.recentFlip then .vetoed .flipCooldown
            else if (validateCounterTrade d.signal i3 i4).valid = false then .vetoed .counterWeak
            else
              finalizeEntry env positions prices balance coin d currentPrice direction leverage
                confidence3 1 stopLoss
          else
            let adj := trendFollowingAdjust d.signal i3 i4 volumeRatio confidence3
            finalizeEntry env positions prices balance coin d currentPrice direction leverage
              adj.1 adj.2 stopLoss

/-- The mutable engine state execute_decision operates on: cash and the open
positions (dict modelled as an insertion-ordered association list). -/
structure EngineState where
  balance : ℚ
  positions : List (String × Position)
  deriving DecidableEq, Repr

/-- One iteration of the decisions loop of execute_decision (lines 1716-1992):
dispatch on price validity, the signal, and whether a position is open. -/
def executeDecisionStep (env : String → EntryEnv) (prices : List (String × ℚ))
    (s : EngineState) (coin : String) (d : Decision) : EngineState :=
  match prices.lookup coin with
  | none => s
  | some price =>
    if price ≤ 0 then s
    else
      match d.signal with
      | .buyToEnter | .sellToEnter =>
        match s.positions.lookup coin with
        | some _ => s
        | none =>
          match executeEntry (env coin) s.positions prices s.balance coin d price with
          | .vetoed _ => s
          | .opened newBalance pos =>
            { balance := newBalance, positions := s.positions ++ [(coin, pos)] }
      | .closeSignal =>
        match s.positions.lookup coin with
        | none => s
        | some pos =>
          let profit := realizedPnl pos.direction pos.entryPrice price pos.quantity
          { balance := s.balance + (pos.marginUsd + profit)
            positions := s.positions.filter (fun p => p.1 ≠ coin) }
      | _ => s

/-- PortfolioManager.execute_decision over a decisions map (insertion-ordered list). -/
def executeDecisions (env : String → EntryEnv) (prices : List (String × ℚ))
    (s : EngineState) (ds : List (String × Decision)) : EngineState :=
  ds.foldl (fun acc cd => executeDecisionStep env prices acc cd.1 cd.2) s

/-- PortfolioManager.get_max_positions_for_cycle (lines 1340-1351). -/
def getMaxPositionsForCycle (cycleNumber : ℕ) : ℕ :=
  if cycleNumber = 1 then 1
  else if cycleNumber = 2 then 2
  else if cycleNumber = 3 then 3
  else if cycleNumber = 4 then 4
  else 5

/-- Is the decision an entry signal. -/
def isEntrySignal (d : Decision) : Bool :=
  d.signal = .buyToEnter || d.signal = .sellToEnter

/-- The decisions_to_execute filter of _execute_normal_decisions (lines
1357-1377): running count starts at len(self.positions); entries at or above
the cap are skipped, every other decision is kept. -/
def filterDecisionsByCap (maxPositions : ℕ) : ℕ → List (String × Decision) → List (String × Decision)
  | _, [] => []
  | currentPositions, (coin, d) :: rest =>
    if isEntrySignal d then
      if currentPositions ≥ maxPositions then filterDecisionsByCap maxPositions currentPositions rest
      else (coin, d) :: filterDecisionsByCap maxPositions (currentPositions + 1) rest
    else (coin, d) :: filterDecisionsByCap maxPositions currentPositions rest

/-- PortfolioManager._execute_normal_decisions (lines 1353-1380). -/
def executeNormalDecisions (env : String → EntryEnv) (prices : List (String × ℚ))
    (s : EngineState) (ds : List (String × Decision)) (cycleNumber : ℕ) : EngineState :=
  let maxPositionsForCycle := getMaxPositionsForCycle cycleNumber
  let toExecute := filterDecisionsByCap maxPositionsForCycle s.positions.length ds
  if toExecute.isEmpty then s else executeDecisions env prices s toExecute

/-- The decisions_to_execute filter of _execute_new_positions_only (lines
1314-1338): same capped count, but non-entry decisions are dropped entirely. -/
def filterNewEntriesByCap (maxPositions : ℕ) : ℕ → List (String × Decision) → List (String × Decision)
  | _, [] => []
  | currentPositions, (coin, d) :: rest =>
    if isEntrySignal d then
      if currentPositions ≥ maxPositions then filterNewEntriesByCap maxPositions currentPositions rest
      else (coin, d) :: filterNewEntriesByCap maxPositions (currentPositions + 1) rest
    else filterNewEntriesByCap maxPositions currentPositions rest

/-- PortfolioManager._execute_new_positions_only (lines 1314-1338). -/
def executeNewPositionsOnly (env : String → EntryEnv) (prices : List (String × ℚ))
    (s : EngineState) (ds : List (String × Decision)) (cycleNumber : ℕ) : EngineState :=
  let maxPositionsForCycle := getMaxPositionsForCycle cycleNumber
  let toExecute := filterNewEntriesByCap maxPositionsForCycle s.positions.length ds
  if toExecute.isEmpty then s else executeDecisions env prices s toExecute

/-- A bare hold decision (what run_trading_cycle lines 3494-3505 rewrites
over-cap entries to, and what execute_decision treats as a no-op). -/
def holdDecision (just : Option String) : Decision :=
  { signal := .holdSignal, leverage := none, confidence := none,
    profitTarget := none, stopLoss := none, justification := just }

/-- The spec's phrasing of the cap: excess entries are rewritten to hold in
place (as the cycle-level filter at lines 3494-3505 does) instead of dropped. -/
def rewriteEntriesToHold (maxPositions : ℕ) : ℕ → List (String × Decision) → List (String × Decision)
  | _, [] => []
  | currentPositions, (coin, d) :: rest =>
    if isEntrySignal d then
      if currentPositions ≥ maxPositions then
        (coin, holdDecision none) :: rewriteEntriesToHold maxPositions currentPositions rest
      else (coin, d) :: rewriteEntriesToHold maxPositions (currentPositions + 1) rest
    else (coin, d) :: rewriteEntriesToHold maxPositions currentPositions rest

/-- Count of entry signals in a decisions list. -/
def countEntries (ds : List (String × Decision)) : ℕ :=
  (ds.filter (fun cd => isEntrySignal cd.2)).length

/- ===================== LLM adapter fallback (DeepSeekAPI, lines 235-290) ===================== -/

/-- Does the character list start with the pattern list. -/
def startsWithChars : List Char → List Char → Bool
  | _, [] => true
  | [], _ :: _ => false
  | a :: as, b :: bs => (a == b) && startsWithChars as bs

/-- Substring search on character lists. -/
def charListContains : List Char → List Char → Bool
  | [], pat => pat.isEmpty
  | c :: rest, pat => startsWithChars (c :: rest) pat || charListContains rest pat

/-- Python `pat in s` substring test. -/
def strContains (s pat : String) : Bool :=
  charListContains s.toList pat.toList

/-- The coin list of get_safe_hold_decisions (line 269). -/
def apiCoins : List String := ["XRP", "DOGE", "JASMY", "ADA", "LINK", "SOL"]

/-- DeepSeekAPI.get_safe_hold_decisions (lines 265-277), at the decisions-map
level (the source renders this map into the prompt-format text that
parse_ai_response later reads back). -/
def safeHoldDecisions : List (String × Decision) :=
  apiCoins.map (fun c => (c, holdDecision (some ("Safe mode: Holding due to API error"))))

/-- A persisted cycle record (the decisions field read by get_cached_decisions). -/
structure CycleRecord where
  decisions : List (String × Decision)
  deriving DecidableEq, Repr

/-- Does a decisions map contain at least one entry signal (line 248). -/
def hasEntrySignal (ds : List (String × Decision)) : Bool :=
  ds.any (fun cd => isEntrySignal cd.2)

/-- DeepSeekAPI.get_cached_decisions (lines 235-263), at the decisions-map
level: scan the last five cycle records from most recent to oldest and return
the first nonempty decisions map containing an entry signal, else the safe-hold
map. -/
def getCachedDecisions (cycleHistory : List CycleRecord) : List (String × Decision) :=
  if cycleHistory.isEmpty then safeHoldDecisions
  else
    match (cycleHistory.reverse.take 5).find?
        (fun c => !c.decisions.isEmpty && hasEntrySignal c.decisions) with
    | some c => c.decisions
    | none => safeHoldDecisions

/-- DeepSeekAPI._get_error_response (lines 279-290): error_message is always a
string here (every call site passes one), so error_type = str(error_message)
and the branch tests substring containment. -/
def getErrorResponse (errorMessage : String) (cycleHistory : List CycleRecord) :
    List (String × Decision) :=
  if strContains errorMessage ("Connection") || strContains errorMessage ("Timeout") then
    getCachedDecisions cycleHistory
  else safeHoldDecisions

/-- AlphaArenaDeepSeek._clean_ai_decisions (lines 3263-3298) over the Decision
fields this model tracks: hold decisions are stripped to the bare signal, with
position data re-attached when the coin has an open position. -/
def cleanAiDecisions (positions : List (String × Position))
    (decisions : List (String × Decision)) : List (String × Decision) :=
  decisions.map (fun cd =>
    if cd.2.signal = .holdSignal then
      match positions.lookup cd.1 with
      | some pos =>
        (cd.1, { signal := .holdSignal, leverage := some pos.leverage,
                 confidence := some pos.confidence,
                 profitTarget := pos.exitPlan.profitTarget,
                 stopLoss := pos.exitPlan.stopLoss, justification := none })
      | none => (cd.1, holdDecision none)
    else cd)

/-- The decisions half of AlphaArenaDeepSeek.parse_ai_response (lines
3242-3261): `jsonBlock` is the result of json.loads on the extracted brace
block (`none` models a JSONDecodeError or a missing block).  On a parse error
the function returns with decisions = {} — the empty map. -/
def parseAiDecisions (jsonBlock : Option (List (String × Decision)))
    (positions : List (String × Position)) : List (String × Decision) :=
  match jsonBlock with
  | some m => cleanAiDecisions positions m
  | none => []

/- ===================== State store (src/nof1ai/utils.py, lines 175-212) ===================== -/

/-- A JSON number as Python json handles it: a finite value, or one of the
non-standard NaN / Infinity / -Infinity extensions. -/
inductive JNum
  | fin (q : ℚ)
  | nan
  | inf
  | neginf
  deriving DecidableEq, Repr

mutual

/-- A JSON document. -/
inductive JsonValue
  | null
  | boolean (b : Bool)
  | num (n : JNum)
  | str (s : String)
  | arr (es : JsonElems)
  | obj (fs : JsonFields)
  deriving DecidableEq, Repr

/-- Array elements. -/
inductive JsonElems
  | nil
  | cons (v : JsonValue) (tl : JsonElems)
  deriving DecidableEq, Repr

/-- Object fields in insertion order. -/
inductive JsonFields
  | nil
  | cons (k : String) (v : JsonValue) (tl : JsonFields)
  deriving DecidableEq, Repr

end

/-- Token stream emitted by the serializer / consumed by the reader
(whitespace and the indent=4 layout carry no information). -/
inductive Tok
  | lbrace
  | rbrace
  | lbrack
  | rbrack
  | colon
  | comma
  | tstr (s : String)
  | tnum (q : ℚ)
  | tnan
  | tinf
  | tneginf
  | tnull
  | ttrue
  | tfalse
  deriving DecidableEq, Repr

mutual

/-- json.dump with default allow_nan=True, as called by safe_file_write
(utils.py line 187): NaN and the infinities are written as the tokens
NaN / Infinity / -Infinity, not as null. -/
def dumpVal : JsonValue → List Tok
  | .null => [.tnull]
  | .boolean true => [.ttrue]
  | .boolean false => [.tfalse]
  | .num (.fin q) => [.tnum q]
  | .num .nan => [.tnan]
  | .num .inf => [.tinf]
  | .num .neginf => [.tneginf]
  | .str s => [.tstr s]
  | .arr .nil => [.lbrack, .rbrack]
  | .arr (.cons v tl) => .lbrack :: (dumpVal v ++ dumpElemsTail tl)
  | .obj .nil => [.lbrace, .rbrace]
  | .obj (.cons k v tl) => .lbrace :: .tstr k :: .colon :: (dumpVal v ++ dumpFieldsTail tl)

/-- Remaining array elements after the first. -/
def dumpElemsTail : JsonElems → List Tok
  | .nil => [.rbrack]
  | .cons v tl => .comma :: (dumpVal v ++ dumpElemsTail tl)

/-- Remaining object fields after the first. -/
def dumpFieldsTail : JsonFields → List Tok
  | .nil => [.rbrace]
  | .cons k v tl => .comma :: .tstr k :: .colon :: (dumpVal v ++ dumpFieldsTail tl)

end

mutual

/-- json.loads as called by safe_file_read (utils.py line 205), fuel-indexed:
parse one value, returning it with the unconsumed tokens. -/
def parseVal : ℕ → List Tok → Option (JsonValue × List Tok)
  | 0, _ => none
  | _ + 1, [] => none
  | f + 1, t :: ts =>
    match t with
    | .tnull => some (.null, ts)
    | .ttrue => some (.boolean true, ts)
    | .tfalse => some (.boolean false, ts)
    | .tnum q => some (.num (.fin q), ts)
    | .tnan => some (.num .nan, ts)
    | .tinf => some (.num .inf, ts)
    | .tneginf => some (.num .neginf, ts)
    | .tstr s => some (.str s, ts)
    | .lbrack =>
      if ts.head? = some Tok.rbrack then some (.arr .nil, ts.tail)
      else
        match parseVal f ts with
        | none => none
        | some (v, ts1) =>
          match parseElemsTail f ts1 with
          | none => none
          | some (tl, ts2) => some (.arr (.cons v tl), ts2)
    | .lbrace =>
      if ts.head? = some Tok.rbrace then some (.obj .nil, ts.tail)
      else
        match ts with
        | .tstr k :: .colon :: ts1 =>
          match parseVal f ts1 with
          | none => none
          | some (v, ts2) =>
            match parseFieldsTail f ts2 with
            | none => none
            | some (tl, ts3) => some (.obj (.cons k v tl), ts3)
        | _ => none
    | _ => none

/-- Parse the array elements after the first. -/
def parseElemsTail : ℕ → List Tok → Option (JsonElems × List Tok)
  | 0, _ => none
  | _ + 1, .rbrack :: ts => some (.nil, ts)
  | f + 1, .comma :: ts =>
    match parseVal f ts with
    | none => none
    | some (v, ts1) =>
      match parseElemsTail f ts1 with
      | none => none
      | some (tl, ts2) => some (.cons v tl, ts2)
  | _ + 1, _ => none

/-- Parse the object fields after the first. -/
def parseFieldsTail : ℕ → List Tok → Option (JsonFields × List Tok)
  | 0, _ => none
  | _ + 1, .rbrace :: ts => some (.nil, ts)
  | f + 1, .comma :: .tstr k :: .colon :: ts =>
    match parseVal f ts with
    | none => none
    | some (v, ts1) =>
      match parseFieldsTail f ts1 with
      | none => none
      | some (tl, ts2) => some (.cons k v tl, ts2)
  | _ + 1, _ => none

end

mutual

/-- Parser fuel bound for a value. -/
def sizeVal : JsonValue → ℕ
  | .null => 1
  | .boolean _ => 1
  | .num _ => 1
  | .str _ => 1
  | .arr .nil => 2
  | .arr (.cons v tl) => sizeVal v + sizeElems tl + 2
  | .obj .nil => 2
  | .obj (.cons _ v tl) => sizeVal v + sizeFields tl + 2

/-- Parser fuel bound for an element tail. -/
def sizeElems : JsonElems → ℕ
  | .nil => 1
  | .cons v tl => sizeVal v + sizeElems tl + 1

/-- Parser fuel bound for a field tail. -/
def sizeFields : JsonFields → ℕ
  | .nil => 1
  | .cons _ v tl => sizeVal v + sizeFields tl + 1

end

/-- The keys of an object field list. -/
def fieldKeys : JsonFields → List String
  | .nil => []
  | .cons k _ tl => k :: fieldKeys tl

mutual

/-- Every object in the document has pairwise distinct keys.  Documents
serialized from Python dicts always satisfy this; json.loads collapses
duplicate keys, which the token model does not. -/
def uniqKeysVal : JsonValue → Bool
  | .arr es => uniqKeysElems es
  | .obj fs => uniqKeysFields fs && (fieldKeys fs).Nodup
  | _ => true

/-- Key uniqueness inside array elements. -/
def uniqKeysElems : JsonElems → Bool
  | .nil => true
  | .cons v tl => uniqKeysVal v && uniqKeysElems tl

/-- Key uniqueness inside object field values. -/
def uniqKeysFields : JsonFields → Bool
  | .nil => true
  | .cons _ v tl => uniqKeysVal v && uniqKeysFields tl

end

/-- safe_file_write (utils.py lines 175-189): the persisted token stream is
json.dump of the document. -/
def safeFileWrite (v : JsonValue) : List Tok :=
  dumpVal v

/-- safe_file_read (utils.py lines 191-212): json.loads of the file content;
a parse failure (or trailing garbage) returns the default. -/
def safeFileRead (content : List Tok) (defaultData : JsonValue) : JsonValue :=
  match parseVal (2 * content.length + 2) content with
  | some (v, []) => v
  | _ => defaultData

/- ===================== Constructor disequalities (evaluation support) ===================== -/

/-- Trend constructors are pairwise distinct (simp support for evaluation). -/
@[simp] theorem trendNe1 : (Trend.bullish = Trend.bearish) = False := by simp

/-- Trend constructor disequality. -/
@[simp] theorem trendNe2 : (Trend.bullish = Trend.neutral) = False := by simp

/-- Trend constructor disequality. -/
@[simp] theorem trendNe3 : (Trend.bullish = Trend.unknownTrend) = False := by simp

/-- Trend constructor disequality. -/
@[simp] theorem trendNe4 : (Trend.bearish = Trend.bullish) = False := by simp

/-- Trend constructor disequality. -/
@[simp] theorem trendNe5 : (Trend.bearish = Trend.neutral) = False := by simp

/-- Trend constructor disequality. -/
@[simp] theorem trendNe6 : (Trend.bearish = Trend.unknownTrend) = False := by simp

/-- Trend constructor disequality. -/
@[simp] theorem trendNe7 : (Trend.neutral = Trend.bullish) = False := by simp

/-- Trend constructor disequality. -/
@[simp] theorem trendNe8 : (Trend.neutral = Trend.bearish) = False := by simp

/-- Trend constructor disequality. -/
@[simp] theorem trendNe9 : (Trend.neutral = Trend.unknownTrend) = False := by simp

/-- Trend constructor disequality. -/
@[simp] theorem trendNe10 : (Trend.unknownTrend = Trend.bullish) = False := by simp

/-- Trend constructor disequality. -/
@[simp] theorem trendNe11 : (Trend.unknownTrend = Trend.bearish) = False := by simp

/-- Trend constructor disequality. -/
@[simp] theorem trendNe12 : (Trend.unknownTrend = Trend.neutral) = False := by simp

/-- Signal constructor disequality. -/
@[simp] theorem signalNe1 : (Signal.buyToEnter = Signal.sellToEnter) = False := by simp

/-- Signal constructor disequality. -/
@[simp] theorem signalNe2 : (Signal.sellToEnter = Signal.buyToEnter) = False := by simp

/-- Signal constructor disequality. -/
@[simp] theorem signalNe3 : (Signal.holdSignal = Signal.buyToEnter) = False := by simp

/-- Signal constructor disequality. -/
@[simp] theorem signalNe4 : (Signal.holdSignal = Signal.sellToEnter) = False := by simp

/-- Signal constructor disequality. -/
@[simp] theorem signalNe5 : (Signal.closeSignal = Signal.buyToEnter) = False := by simp

/-- Signal constructor disequality. -/
@[simp] theorem signalNe6 : (Signal.closeSignal = Signal.sellToEnter) = False := by simp

/-- Signal constructor disequality. -/
@[simp] theorem signalNe7 : (Signal.unknown = Signal.buyToEnter) = False := by simp

/-- Signal constructor disequality. -/
@[simp] theorem signalNe8 : (Signal.unknown = Signal.sellToEnter) = False := by simp

/-- Signal constructor disequality. -/
@[simp] theorem signalNe9 : (Signal.buyToEnter = Signal.holdSignal) = False := by simp

/-- Signal constructor disequality. -/
@[simp] theorem signalNe10 : (Signal.sellToEnter = Signal.holdSignal) = False := by simp

/-- Direction constructor disequality. -/
@[simp] theorem directionNe1 : (Direction.long = Direction.short) = False := by simp

/-- Direction constructor disequality. -/
@[simp] theorem directionNe2 : (Direction.short = Direction.long) = False := by simp

/- ===================== Helper lemmas: exit monitor ===================== -/

/-- The maximum limit is at least $15. -/
theorem calculateMaximumLimit_ge (b : ℚ) : (15 : ℚ) ≤ calculateMaximumLimit b := by
  unfold calculateMaximumLimit
  exact le_max_left _ _

/-- With a positive proposed percentage, the adjustment either forces a full
close or yields a positive adjusted percentage. -/
theorem adjustSale_pos (b m p : ℚ) (hp : 0 < p) :
    (adjustSaleForMaxLimit b m p).2 = true ∨ 0 < (adjustSaleForMaxLimit b m p).1 := by
  unfold adjustSaleForMaxLimit
  dsimp only
  split_ifs with h1 h2
  · exact Or.inl rfl
  · exact Or.inr hp
  · right
    have hm : calculateMaximumLimit b < m := not_le.mp h1
    have hm0 : (0 : ℚ) < m :=
      lt_of_lt_of_le (by norm_num) (le_trans (calculateMaximumLimit_ge b) (le_of_lt hm))
    exact div_pos (by linarith) hm0

/-- Every branch of the profit-taking chain that returns keeps the position
untouched and is never a trailing-stop update. -/
theorem profitChainStep_eq_some {b : ℚ} {pos : Position} {t : ℚ} {r : ExitAction × Position}
    (h : profitChainStep b pos t = some r) : r.2 = pos ∧ isUpdateStop r.1 = false := by
  unfold profitChainStep at h
  dsimp only at h
  split_ifs at h <;>
    (rw [Option.some.injEq] at h; subst h; exact ⟨rfl, rfl⟩)

/-- With a positive proposed percentage the chain branch always returns. -/
theorem profitChainStep_isSome (b : ℚ) (pos : Position) (t : ℚ) (ht : 0 < t) :
    (profitChainStep b pos t).isSome = true := by
  unfold profitChainStep
  dsimp only
  rcases adjustSale_pos b pos.marginUsd t ht with h | h
  · rw [if_pos h]
    rfl
  · by_cases hb : (adjustSaleForMaxLimit b pos.marginUsd t).2 = true
    · rw [if_pos hb]
      rfl
    · rw [if_neg hb, if_pos h]
      rfl

/-- The take percentages are positive and level1 ≤ level2 in every notional band. -/
theorem profitLevels_facts (n : ℚ) :
    0 < (getProfitLevelsByNotional n).take1 ∧ 0 < (getProfitLevelsByNotional n).take2 ∧
    0 < (getProfitLevelsByNotional n).take3 ∧
    (getProfitLevelsByNotional n).level1 ≤ (getProfitLevelsByNotional n).level2 := by
  unfold getProfitLevelsByNotional
  split_ifs <;> norm_num

/-- Below level-1 gain the long trailing block does nothing. -/
theorem trailingLong_hold (pos : Position) (price pnl : ℚ) (lv : ProfitLevels)
    (h1 : pnl < lv.level1) (h2 : lv.level1 ≤ lv.level2) :
    trailingLong pos price pnl lv = (.holdAction, pos) := by
  unfold trailingLong
  rw [if_neg (by linarith : ¬ pnl ≥ lv.level2), if_neg (by linarith : ¬ pnl ≥ lv.level1)]

/-- Below level-1 gain the short trailing block does nothing. -/
theorem trailingShort_hold (pos : Position) (price pnl : ℚ) (lv : ProfitLevels)
    (h1 : pnl < lv.level1) (h2 : lv.level1 ≤ lv.level2) :
    trailingShort pos price pnl lv = (.holdAction, pos) := by
  unfold trailingShort
  rw [if_neg (by linarith : ¬ pnl ≥ lv.level2), if_neg (by linarith : ¬ pnl ≥ lv.level1)]

/-- The long branch never changes the position and never issues a stop update:
at or above level-1 gain the profit chain always returns first, and below it
the trailing conditions are false. -/
theorem exitLongBranch_spec (b : ℚ) (pos : Position) (price : ℚ) (lv : ProfitLevels)
    (ht1 : 0 < lv.take1) (ht2 : 0 < lv.take2) (ht3 : 0 < lv.take3)
    (hl : lv.level1 ≤ lv.level2) :
    (exitLongBranch b pos price lv).2 = pos ∧
    isUpdateStop (exitLongBranch b pos price lv).1 = false := by
  unfold exitLongBranch
  dsimp only
  split_ifs with h3 h2 h1
  · rcases hs : profitChainStep b pos lv.take3 with _ | r
    · exact absurd (profitChainStep_isSome b pos lv.take3 ht3) (by rw [hs]; simp)
    · simp only [hs]
      exact profitChainStep_eq_some hs
  · rcases hs : profitChainStep b pos lv.take2 with _ | r
    · exact absurd (profitChainStep_isSome b pos lv.take2 ht2) (by rw [hs]; simp)
    · simp only [hs]
      exact profitChainStep_eq_some hs
  · rcases hs : profitChainStep b pos lv.take1 with _ | r
    · exact absurd (profitChainStep_isSome b pos lv.take1 ht1) (by rw [hs]; simp)
    · simp only [hs]
      exact profitChainStep_eq_some hs
  · rw [trailingLong_hold pos price _ lv (not_le.mp h1) hl]
    exact ⟨rfl, rfl⟩

/-- The short branch never changes the position and never issues a stop update. -/
theorem exitShortBranch_spec (b : ℚ) (pos : Position) (price : ℚ) (lv : ProfitLevels)
    (ht1 : 0 < lv.take1) (ht2 : 0 < lv.take2) (ht3 : 0 < lv.take3)
    (hl : lv.level1 ≤ lv.level2) :
    (exitShortBranch b pos price lv).2 = pos ∧
    isUpdateStop (exitShortBranch b pos price lv).1 = false := by
  unfold exitShortBranch
  dsimp only
  split_ifs with h3 h2 h1
  · rcases hs : profitChainStep b pos lv.take3 with _ | r
    · exact absurd (profitChainStep_isSome b pos lv.take3 ht3) (by rw [hs]; simp)
    · simp only [hs]
      exact profitChainStep_eq_some hs
  · rcases hs : profitChainStep b pos lv.take2 with _ | r
    · exact absurd (profitChainStep_isSome b pos lv.take2 ht2) (by rw [hs]; simp)
    · simp only [hs]
      exact profitChainStep_eq_some hs
  · rcases hs : profitChainStep b pos lv.take1 with _ | r
    · exact absurd (profitChainStep_isSome b pos lv.take1 ht1) (by rw [hs]; simp)
    · simp only [hs]
      exact profitChainStep_eq_some hs
  · rw [trailingShort_hold pos price _ lv (not_le.mp h1) hl]
    exact ⟨rfl, rfl⟩

/-- The enhanced exit strategy never changes the position it is given (in
particular the stop loss), and its action is never a stop update. -/
theorem enhancedExitStrategy_no_update (b : ℚ) (pos : Position) (price : ℚ) :
    (enhancedExitStrategy b pos price).2 = pos ∧
    isUpdateStop (enhancedExitStrategy b pos price).1 = false := by
  obtain ⟨hf1, hf2, hf3, hf4⟩ := profitLevels_facts pos.notionalUsd
  have hlong := exitLongBranch_spec b pos price (getProfitLevelsByNotional pos.notionalUsd)
    hf1 hf2 hf3 hf4
  have hshort := exitShortBranch_spec b pos price (getProfitLevelsByNotional pos.notionalUsd)
    hf1 hf2 hf3 hf4
  unfold enhancedExitStrategy
  dsimp only
  split_ifs
  all_goals try exact ⟨rfl, rfl⟩
  all_goals
    cases hd : pos.direction
    · simp only [hd]
      exact hlong
    · simp only [hd]
      exact hshort

/-- C2: Trailing-stop monotonicity.  For every exit-monitor evaluation of an
open position, enhanced_exit_strategy never issues an update_stop action and
returns the position with its stop_loss unchanged; hence for a long the stop
never decreases across successive evaluations while the position is held, and
symmetrically for a short (in this code no trailing update is ever reachable:
the tiered profit-taking chain always returns before the trailing block, so
the stop is literally constant, which in particular only ever "tightens"). -/
theorem C2_trailing_stop_monotonicity (b : ℚ) (pos : Position) (price : ℚ) :
    isUpdateStop (enhancedExitStrategy b pos price).1 = false ∧
    ((enhancedExitStrategy b pos price).2).exitPlan.stopLoss = pos.exitPlan.stopLoss := by
  obtain ⟨hpos, hact⟩ := enhancedExitStrategy_no_update b pos price
  exact ⟨hact, by rw [hpos]⟩

/-- C10: in a single check_and_execute_tp_sl iteration, a position whose
enhanced exit decision is a partial close or a trailing-stop update is not
evaluated against its hard profit_target/stop_loss: the branch `continue`s, so
the position survives this invocation and no TP/SL close fires, even if the
current price has already crossed those levels. -/
theorem C10_partial_close_skips_hard_tp_sl (b : ℚ) (pos : Position) (price : ℚ)
    (h : (∃ pct, (enhancedExitStrategy b pos price).1 = .partialCloseAction pct) ∨
         (∃ s, (enhancedExitStrategy b pos price).1 = .updateStopAction s)) :
    ((tpSlStep b pos price).position).isSome = true ∧
    isHardStopEvent (tpSlStep b pos price).event = false := by
  unfold tpSlStep
  dsimp only
  rcases h with ⟨pct, h⟩ | ⟨s, h⟩ <;> rw [h] <;> exact ⟨rfl, rfl⟩

/-- Concrete long position for the C10 witness: entry 100, quantity 1.2,
notional 120, margin 40, profit target 101, stop 99. -/
def C10pos : Position :=
  { symbol := "BTC", direction := .long, quantity := 12/10, entryPrice := 100,
    currentPrice := 100, unrealizedPnl := 0, notionalUsd := 120, marginUsd := 40,
    leverage := 3, confidence := 1/2, lossCycleCount := 0,
    exitPlan := { profitTarget := some 101, stopLoss := some 99 } }

/-- C10 witness: at price 101.2 the gain is 1.2% ≥ level-3 (1.1%), the chain
returns a 62.5% partial close (adjusted for the $15 maximum limit), the price
has crossed the profit target 101, and yet the position survives the
invocation with no hard TP/SL close. -/
theorem C10_partial_close_skips_hard_tp_sl_witness :
    (enhancedExitStrategy 100 C10pos (1012/10)).1 = .partialCloseAction (5/8) ∧
    C10pos.exitPlan.profitTarget = some 101 ∧
    ((1012/10 : ℚ) ≥ 101) = True ∧
    ((tpSlStep 100 C10pos (1012/10)).position).isSome = true ∧
    isHardStopEvent (tpSlStep 100 C10pos (1012/10)).event = false := by
  have hact : (enhancedExitStrategy 100 C10pos (1012/10)).1 = .partialCloseAction (5/8) := by
    norm_num [enhancedExitStrategy, exitLongBranch, profitChainStep, adjustSaleForMaxLimit,
      calculateMaximumLimit, getProfitLevelsByNotional, trailingLong, C10pos]
  refine ⟨hact, rfl, by norm_num, ?_⟩
  exact C10_partial_close_skips_hard_tp_sl 100 C10pos (1012/10) (Or.inl ⟨5/8, hact⟩)

/-- The sized entry path only opens a position with the new balance equal to
the old balance minus exactly the stored margin_usd. -/
theorem finalizeEntry_opened {env : EntryEnv} {positions : List (String × Position)}
    {prices : List (String × ℚ)} {balance : ℚ} {coin : String} {d : Decision}
    {price : ℚ} {dir : Direction} {lev : ℤ} {conf pmf : ℚ} {sl : Option ℚ}
    {b' : ℚ} {p : Position}
    (h : finalizeEntry env positions prices balance coin d price dir lev conf pmf sl =
         .opened b' p) :
    b' = balance - p.marginUsd := by
  unfold finalizeEntry at h
  dsimp only at h
  split_ifs at h
  all_goals first
    | exact EntryResult.noConfusion h
    | (injection h with hb hp
       subst hb
       subst hp
       rfl)

/-- C1: Cash conservation across the position lifecycle.
(1) Every executed entry deducts exactly the position's margin_usd from the
balance.  (2) Every full exit performed by the exit monitor returns exactly
margin_usd + realized pnl.  (3) Every partial exit of fraction f returns
exactly f·margin_usd plus the pnl on the closed fraction, and the remaining
position's margin_usd is (1-f) times the pre-close margin.  (4) Every AI
close_position returns exactly margin_usd + realized pnl. -/
theorem C1_cash_conservation :
    (∀ (env : EntryEnv) (positions : List (String × Position))
       (prices : List (String × ℚ)) (balance : ℚ) (coin : String) (d : Decision)
       (price b' : ℚ) (p : Position),
       executeEntry env positions prices balance coin d price = .opened b' p →
       b' = balance - p.marginUsd) ∧
    (∀ (balance : ℚ) (pos : Position) (price : ℚ),
       (tpSlStep balance pos price).position = none →
       (tpSlStep balance pos price).balance =
         balance + (pos.marginUsd + realizedPnl pos.direction pos.entryPrice price pos.quantity)) ∧
    (∀ (balance : ℚ) (pos : Position) (price pct pnl : ℚ),
       (tpSlStep balance pos price).event = .partialClosed pct pnl →
       (tpSlStep balance pos price).balance =
         balance + (pos.marginUsd * pct +
           realizedPnl pos.direction pos.entryPrice price (pos.quantity * pct)) ∧
       ∃ p2, (tpSlStep balance pos price).position = some p2 ∧
         p2.marginUsd = pos.marginUsd * (1 - pct)) ∧
    (∀ (env : String → EntryEnv) (prices : List (String × ℚ)) (s : EngineState)
       (coin : String) (d : Decision) (price : ℚ) (pos : Position),
       d.signal = .closeSignal → prices.lookup coin = some price → ¬ price ≤ 0 →
       s.positions.lookup coin = some pos →
       (executeDecisionStep env prices s coin d).balance =
         s.balance + (pos.marginUsd + realizedPnl pos.direction pos.entryPrice price pos.quantity)) := by
  refine ⟨?_, ?_, ?_, ?_⟩
  · intro env positions prices balance coin d price b' p h
    unfold executeEntry at h
    dsimp only at h
    repeat' split at h
    all_goals first
      | exact EntryResult.noConfusion h
      | exact finalizeEntry_opened h
  · intro balance pos price h
    unfold tpSlStep at h ⊢
    dsimp only at h ⊢
    rcases hed : (enhancedExitStrategy balance pos price).1 with _ | _ | pct | s <;>
      simp only [hed] at h ⊢ <;>
      first
        | rfl
        | exact Option.noConfusion h
        | (split_ifs at h ⊢ <;> first | rfl | exact Option.noConfusion h)
  · intro balance pos price pct pnl h
    unfold tpSlStep at h ⊢
    dsimp only at h ⊢
    rcases hed : (enhancedExitStrategy balance pos price).1 with _ | _ | pct2 | s <;>
      simp only [hed] at h ⊢
    · split_ifs at h ⊢ <;> exact TpSlEvent.noConfusion h
    · exact TpSlEvent.noConfusion h
    · injection h with h1 h2
      subst h1
      exact ⟨rfl, _, rfl, rfl⟩
    · exact TpSlEvent.noConfusion h
  · intro env prices s coin d price pos hsig hprice hp hpos
    unfold executeDecisionStep
    rw [hprice]
    dsimp only
    rw [if_neg hp, hsig]
    dsimp only
    rw [hpos]

/-- Indicator bundle for the C1 witness: 4h price 110 over EMA20 100 (bullish),
3m price 99 under EMA20 100, volume ratio 1. -/
def C1env : EntryEnv :=
  { marketRegime := .neutralRegime, volumeQualityScore := 0,
    biasLong := some ⟨0, 0⟩, biasShort := some ⟨0, 0⟩,
    indicators3m := ⟨false, some 99, some 100, 100, 100, 50, 0, 0⟩,
    indicators4h := ⟨false, some 110, some 100, 0, 1, 50, 0, 0⟩,
    prevTrend := some ⟨.bullish, 0⟩, cycleNumber := 10,
    enhanceShort := false, stopLossMultiplier := 1 }

/-- Entry decision for the C1 witness. -/
def C1dec : Decision := ⟨.buyToEnter, some 10, some (1/2), none, none, none⟩

/-- The position the C1 witness entry opens. -/
def C1pos : Position :=
  { symbol := "SOL", direction := .long, quantity := 18, entryPrice := 100,
    currentPrice := 100, unrealizedPnl := 0, notionalUsd := 1800, marginUsd := 180,
    leverage := 10, confidence := 1/2, lossCycleCount := 0,
    exitPlan := { profitTarget := none, stopLoss := none } }

/-- A stalled losing long for the C1 witness full-exit and AI-close parts. -/
def C1posStall : Position :=
  { symbol := "SOL", direction := .long, quantity := 1, entryPrice := 100,
    currentPrice := 90, unrealizedPnl := -10, notionalUsd := 100, marginUsd := 10,
    leverage := 10, confidence := 1/2, lossCycleCount := 10,
    exitPlan := { profitTarget := none, stopLoss := none } }

/-- A profitable long for the C1 witness partial-exit part. -/
def C1posPart : Position :=
  { symbol := "ADA", direction := .long, quantity := 12/10, entryPrice := 100,
    currentPrice := 100, unrealizedPnl := 0, notionalUsd := 120, marginUsd := 40,
    leverage := 3, confidence := 1/2, lossCycleCount := 0,
    exitPlan := { profitTarget := some 101, stopLoss := some 99 } }

/-- AI close decision for the C1 witness. -/
def C1decClose : Decision := ⟨.closeSignal, none, none, none, none, none⟩

/-- C1 witness: a concrete entry deducts exactly its margin (1000 → 820 with
margin 180), a concrete stall close returns margin + pnl, a concrete 62.5%
partial close returns 0.625·margin + pnl on the closed fraction, and a
concrete AI close returns margin + pnl. -/
theorem C1_cash_conservation_witness :
    executeEntry C1env [] [] 1000 "SOL" C1dec 100 = .opened 820 C1pos ∧
    (820 : ℚ) = 1000 - C1pos.marginUsd ∧
    (tpSlStep 50 C1posStall 90).position = none ∧
    (tpSlStep 50 C1posStall 90).balance =
      50 + (C1posStall.marginUsd + realizedPnl C1posStall.direction C1posStall.entryPrice 90 C1posStall.quantity) ∧
    (tpSlStep 100 C1posPart (1012/10)).event = .partialClosed (5/8) (9/10) ∧
    (tpSlStep 100 C1posPart (1012/10)).balance =
      100 + (C1posPart.marginUsd * (5/8) +
        realizedPnl C1posPart.direction C1posPart.entryPrice (1012/10) (C1posPart.quantity * (5/8))) ∧
    (executeDecisionStep (fun _ => C1env) [("SOL", 90)]
        ⟨100, [("SOL", C1posStall)]⟩ "SOL" C1decClose).balance =
      100 + (C1posStall.marginUsd +
        realizedPnl C1posStall.direction C1posStall.entryPrice 90 C1posStall.quantity) := by
  have hentry : executeEntry C1env [] [] 1000 "SOL" C1dec 100 = .opened 820 C1pos := by
    norm_num [executeEntry, finalizeEntry, C1env, C1dec, C1pos, normalizeConfidence,
      normalizeLeverage, volumePenalty, volumeRatioOf, updateTrendState, applyDirectionalBias,
      isCounterTrendTrade, trendFollowingAdjust, trendAligned, calculateConfidenceBasedMargin,
      marketRegimeMultiplier, dominantDirection, entryDirection, countPositionsByDirection,
      shouldEnterTrade, checkPortfolioDiversification, calculatePortfolioRisk, totalNotional,
      totalMargin, adjustNotionalByConfidence, maxPortfolioRisk, MIN_CONFIDENCE,
      MIN_POSITION_MARGIN_USD, MAX_LEVERAGE, EMA_NEUTRAL_BAND_PCT, INTRADAY_NEUTRAL_RSI_HIGH,
      INTRADAY_NEUTRAL_RSI_LOW, TREND_FLIP_COOLDOWN, abs_of_nonneg, abs_of_nonpos]
  have hstallPos : (tpSlStep 50 C1posStall 90).position = none := by
    norm_num [tpSlStep, enhancedExitStrategy, C1posStall, realizedPnl]
  have hpartEvent : (tpSlStep 100 C1posPart (1012/10)).event = .partialClosed (5/8) (9/10) := by
    norm_num [tpSlStep, enhancedExitStrategy, exitLongBranch, profitChainStep,
      adjustSaleForMaxLimit, calculateMaximumLimit, getProfitLevelsByNotional, trailingLong,
      C1posPart, realizedPnl]
  refine ⟨hentry, C1_cash_conservation.1 C1env [] [] 1000 "SOL" C1dec 100 820 C1pos hentry,
    hstallPos, C1_cash_conservation.2.1 50 C1posStall 90 hstallPos,
    hpartEvent, (C1_cash_conservation.2.2.1 100 C1posPart (1012/10) (5/8) (9/10) hpartEvent).1,
    C1_cash_conservation.2.2.2 (fun _ => C1env) [("SOL", 90)]
      ⟨100, [("SOL", C1posStall)]⟩ "SOL" C1decClose 90 C1posStall rfl (by norm_num [List.lookup])
      (by norm_num) (by norm_num [List.lookup])⟩

/- ===================== Helper lemmas: ramp-up cap ===================== -/

/-- Entry count of a cons. -/
theorem countEntries_cons (c : String × Decision) (tl : List (String × Decision)) :
    countEntries (c :: tl) = (if isEntrySignal c.2 then 1 else 0) + countEntries tl := by
  simp only [countEntries, List.filter_cons]
  split_ifs <;> simp [Nat.add_comm]

/-- One decisions-loop iteration grows the position count by at most one, and
only for an entry signal. -/
theorem executeDecisionStep_length (env : String → EntryEnv) (prices : List (String × ℚ))
    (s : EngineState) (coin : String) (d : Decision) :
    (executeDecisionStep env prices s coin d).positions.length ≤
      s.positions.length + (if isEntrySignal d then 1 else 0) := by
  unfold executeDecisionStep
  repeat' split
  all_goals try exact Nat.le_add_right _ _
  all_goals simp_all [isEntrySignal, List.length_append]
  all_goals exact List.length_filter_le _ _

/-- Unfolding step for the decisions fold. -/
theorem executeDecisions_cons (env : String → EntryEnv) (prices : List (String × ℚ))
    (s : EngineState) (x : String × Decision) (l : List (String × Decision)) :
    executeDecisions env prices s (x :: l) =
      executeDecisions env prices (executeDecisionStep env prices s x.1 x.2) l := rfl

/-- Executing a decisions list grows the position count by at most the number
of entry signals in it. -/
theorem executeDecisions_length (env : String → EntryEnv) (prices : List (String × ℚ)) :
    ∀ (ds : List (String × Decision)) (s : EngineState),
    (executeDecisions env prices s ds).positions.length ≤
      s.positions.length + countEntries ds := by
  intro ds
  induction ds with
  | nil => intro s; simp [executeDecisions, countEntries]
  | cons hd tl ih =>
    intro s
    rw [executeDecisions_cons, countEntries_cons]
    calc (executeDecisions env prices (executeDecisionStep env prices s hd.1 hd.2) tl).positions.length
        ≤ (executeDecisionStep env prices s hd.1 hd.2).positions.length + countEntries tl := ih _
      _ ≤ s.positions.length + (if isEntrySignal hd.2 then 1 else 0) + countEntries tl := by
          have := executeDecisionStep_length env prices s hd.1 hd.2
          omega
      _ = s.positions.length + ((if isEntrySignal hd.2 then 1 else 0) + countEntries tl) := by omega

/-- The capped filter admits at most (cap - current) entries. -/
theorem filterDecisionsByCap_count (cap : ℕ) :
    ∀ (ds : List (String × Decision)) (cur : ℕ),
      cur + countEntries (filterDecisionsByCap cap cur ds) ≤ max cur cap := by
  intro ds
  induction ds with
  | nil => intro cur; simp [filterDecisionsByCap, countEntries, Nat.le_max_left]
  | cons hd tl ih =>
    intro cur
    rcases hd with ⟨coin, d⟩
    unfold filterDecisionsByCap
    split_ifs with h1 h2
    · exact ih cur
    · rw [countEntries_cons]
      simp only [h1, if_true]
      have h3 := ih (cur + 1)
      have h4 : max (cur + 1) cap = cap := Nat.max_eq_right (by omega)
      have h5 : max cur cap = cap := Nat.max_eq_right (by omega)
      omega
    · rw [countEntries_cons]
      simp [h1]
      have := ih cur
      omega

/-- The entries-only capped filter admits at most (cap - current) entries. -/
theorem filterNewEntriesByCap_count (cap : ℕ) :
    ∀ (ds : List (String × Decision)) (cur : ℕ),
      cur + countEntries (filterNewEntriesByCap cap cur ds) ≤ max cur cap := by
  intro ds
  induction ds with
  | nil => intro cur; simp [filterNewEntriesByCap, countEntries, Nat.le_max_left]
  | cons hd tl ih =>
    intro cur
    rcases hd with ⟨coin, d⟩
    unfold filterNewEntriesByCap
    split_ifs with h1 h2
    · exact ih cur
    · rw [countEntries_cons]
      simp only [h1, if_true]
      have h3 := ih (cur + 1)
      have h4 : max (cur + 1) cap = cap := Nat.max_eq_right (by omega)
      have h5 : max cur cap = cap := Nat.max_eq_right (by omega)
      omega
    · exact ih cur

/-- A bare hold decision is a no-op for the decisions loop. -/
theorem executeDecisionStep_hold (env : String → EntryEnv) (prices : List (String × ℚ))
    (s : EngineState) (coin : String) (j : Option String) :
    executeDecisionStep env prices s coin (holdDecision j) = s := by
  unfold executeDecisionStep holdDecision
  rcases hl : prices.lookup coin with _ | price <;> simp only [hl]
  split_ifs <;> rfl

/-- Dropping over-cap entries (as _execute_normal_decisions does) produces the
same final state as rewriting them to hold in place (as the cycle-level filter
at lines 3494-3505 does), because a bare hold is a no-op. -/
theorem filterByCap_eq_rewriteToHold (env : String → EntryEnv) (prices : List (String × ℚ))
    (cap : ℕ) :
    ∀ (ds : List (String × Decision)) (cur : ℕ) (s : EngineState),
      executeDecisions env prices s (filterDecisionsByCap cap cur ds) =
        executeDecisions env prices s (rewriteEntriesToHold cap cur ds) := by
  intro ds
  induction ds with
  | nil => intro cur s; rfl
  | cons hd tl ih =>
    intro cur s
    rcases hd with ⟨coin, d⟩
    unfold filterDecisionsByCap rewriteEntriesToHold
    split_ifs with h1 h2
    · conv_rhs => rw [executeDecisions_cons]
      rw [executeDecisionStep_hold]
      exact ih cur s
    · rw [executeDecisions_cons]
      conv_rhs => rw [executeDecisions_cons]
      exact ih (cur + 1) _
    · rw [executeDecisions_cons]
      conv_rhs => rw [executeDecisions_cons]
      exact ih cur _

/-- C4 (amended): the ramp-up cap on the AI decision paths.  (a) For every
cycle N ≥ 1 the per-cycle cap equals min(N, 5).  (b) If the cycle starts with
at most min(N, 5) open positions, both AI decision paths
(_execute_normal_decisions and _execute_new_positions_only) end with at most
min(N, 5) open positions.  (c) Skipping over-cap entries is observationally
the same as rewriting them to hold.  The original claim's unconditional
end-of-cycle bound fails only for the manual-override path, which executes
decisions without the cap filter (see the counterexample). -/
theorem C4_ramp_cap_amended :
    (∀ n : ℕ, 1 ≤ n → getMaxPositionsForCycle n = min n 5) ∧
    (∀ (env : String → EntryEnv) (prices : List (String × ℚ)) (s : EngineState)
       (ds : List (String × Decision)) (cyc : ℕ),
       s.positions.length ≤ getMaxPositionsForCycle cyc →
       (executeNormalDecisions env prices s ds cyc).positions.length ≤
           getMaxPositionsForCycle cyc ∧
       (executeNewPositionsOnly env prices s ds cyc).positions.length ≤
           getMaxPositionsForCycle cyc) ∧
    (∀ (env : String → EntryEnv) (prices : List (String × ℚ)) (s : EngineState)
       (ds : List (String × Decision)) (cap cur : ℕ),
       executeDecisions env prices s (filterDecisionsByCap cap cur ds) =
         executeDecisions env prices s (rewriteEntriesToHold cap cur ds)) := by
  refine ⟨?_, ?_, ?_⟩
  · intro n hn
    unfold getMaxPositionsForCycle
    split_ifs <;> omega
  · intro env prices s ds cyc hstart
    constructor
    · unfold executeNormalDecisions
      dsimp only
      split_ifs with he
      · exact hstart
      · have h1 := executeDecisions_length env prices
          (filterDecisionsByCap (getMaxPositionsForCycle cyc) s.positions.length ds) s
        have h2 := filterDecisionsByCap_count (getMaxPositionsForCycle cyc) ds s.positions.length
        have h3 : max s.positions.length (getMaxPositionsForCycle cyc) =
            getMaxPositionsForCycle cyc := Nat.max_eq_right hstart
        omega
    · unfold executeNewPositionsOnly
      dsimp only
      split_ifs with he
      · exact hstart
      · have h1 := executeDecisions_length env prices
          (filterNewEntriesByCap (getMaxPositionsForCycle cyc) s.positions.length ds) s
        have h2 := filterNewEntriesByCap_count (getMaxPositionsForCycle cyc) ds s.positions.length
        have h3 : max s.positions.length (getMaxPositionsForCycle cyc) =
            getMaxPositionsForCycle cyc := Nat.max_eq_right hstart
        omega
  · intro env prices s ds cap cur
    exact filterByCap_eq_rewriteToHold env prices cap ds cur s

/-- Entry environment for the C4 counterexample (trend bullish on the 4h, 3m
below its EMA so the trade is neither counter-trend nor aligned). -/
def C4env : EntryEnv :=
  { marketRegime := .neutralRegime, volumeQualityScore := 0,
    biasLong := some ⟨0, 0⟩, biasShort := some ⟨0, 0⟩,
    indicators3m := ⟨false, some 99, some 100, 100, 100, 50, 0, 0⟩,
    indicators4h := ⟨false, some 110, some 100, 0, 1, 50, 0, 0⟩,
    prevTrend := some ⟨.bullish, 0⟩, cycleNumber := 10,
    enhanceShort := false, stopLossMultiplier := 1 }

/-- Low-confidence entry decision for the C4 counterexample. -/
def C4dec : Decision := ⟨.buyToEnter, none, some (1/10), none, none, none⟩

/-- First position opened by the C4 counterexample override. -/
def C4posA : Position :=
  { symbol := "ADA", direction := .long, quantity := 72/25, entryPrice := 100,
    currentPrice := 100, unrealizedPnl := 0, notionalUsd := 288, marginUsd := 36,
    leverage := 8, confidence := 1/10, lossCycleCount := 0,
    exitPlan := { profitTarget := none, stopLoss := none } }

/-- Second position opened by the C4 counterexample override. -/
def C4posX : Position :=
  { symbol := "XRP", direction := .long, quantity := 8676/3125, entryPrice := 100,
    currentPrice := 100, unrealizedPnl := 0, notionalUsd := 34704/125, marginUsd := 4338/125,
    leverage := 8, confidence := 1/10, lossCycleCount := 0,
    exitPlan := { profitTarget := none, stopLoss := none } }

/-- C4 counterexample: the manual-override path (run_trading_cycle line 3561)
hands the override decisions straight to execute_decision with no ramp-cap
filter, so a cycle-1 override with two entry signals ends the cycle with two
open positions, exceeding min(1, 5) = 1. -/
theorem C4_counterexample :
    (executeDecisions (fun _ => C4env) [("ADA", 100), ("XRP", 100)]
        ⟨1000, []⟩ [("ADA", C4dec), ("XRP", C4dec)]).positions.length = 2 ∧
    getMaxPositionsForCycle 1 = 1 := by
  have h1 : executeDecisionStep (fun _ => C4env) [("ADA", 100), ("XRP", 100)]
      ⟨1000, []⟩ "ADA" C4dec = ⟨964, [("ADA", C4posA)]⟩ := by
    norm_num [executeDecisionStep, executeEntry, finalizeEntry, C4env, C4dec, C4posA,
      normalizeConfidence, normalizeLeverage, volumePenalty, volumeRatioOf, updateTrendState,
      applyDirectionalBias, isCounterTrendTrade, trendFollowingAdjust, trendAligned,
      calculateConfidenceBasedMargin, marketRegimeMultiplier, dominantDirection, entryDirection,
      countPositionsByDirection, shouldEnterTrade, checkPortfolioDiversification,
      calculatePortfolioRisk, totalNotional, totalMargin, adjustNotionalByConfidence,
      maxPortfolioRisk, MIN_CONFIDENCE, MIN_POSITION_MARGIN_USD, MAX_LEVERAGE,
      EMA_NEUTRAL_BAND_PCT, INTRADAY_NEUTRAL_RSI_HIGH, INTRADAY_NEUTRAL_RSI_LOW,
      TREND_FLIP_COOLDOWN, abs_of_nonneg, abs_of_nonpos, List.lookup]
  have h2 : executeDecisionStep (fun _ => C4env) [("ADA", 100), ("XRP", 100)]
      ⟨964, [("ADA", C4posA)]⟩ "XRP" C4dec = ⟨116162/125, [("ADA", C4posA), ("XRP", C4posX)]⟩ := by
    norm_num [executeDecisionStep, executeEntry, finalizeEntry, C4env, C4dec, C4posA, C4posX,
      normalizeConfidence, normalizeLeverage, volumePenalty, volumeRatioOf, updateTrendState,
      applyDirectionalBias, isCounterTrendTrade, trendFollowingAdjust, trendAligned,
      calculateConfidenceBasedMargin, marketRegimeMultiplier, dominantDirection, entryDirection,
      countPositionsByDirection, shouldEnterTrade, checkPortfolioDiversification,
      calculatePortfolioRisk, totalNotional, totalMargin, adjustNotionalByConfidence,
      maxPortfolioRisk, MIN_CONFIDENCE, MIN_POSITION_MARGIN_USD, MAX_LEVERAGE,
      EMA_NEUTRAL_BAND_PCT, INTRADAY_NEUTRAL_RSI_HIGH, INTRADAY_NEUTRAL_RSI_LOW,
      TREND_FLIP_COOLDOWN, abs_of_nonneg, abs_of_nonpos, List.lookup,
      show ("XRP" == "ADA") = false from rfl, show ("XRP" = "ADA") = False by simp]
  constructor
  · rw [executeDecisions_cons, h1, executeDecisions_cons, h2]
    rfl
  · rfl

/-- C4 witness: the amended cap theorem applied at cycle 3 with one open
position and a decisions list of one hold, and the cap formula at 3. -/
theorem C4_ramp_cap_amended_witness :
    getMaxPositionsForCycle 3 = min 3 5 ∧
    (executeNormalDecisions (fun _ => C4env) [] ⟨1000, [("SOL", C1pos)]⟩
        [("ADA", holdDecision none)] 3).positions.length ≤ getMaxPositionsForCycle 3 := by
  refine ⟨C4_ramp_cap_amended.1 3 (by norm_num), ?_⟩
  exact (C4_ramp_cap_amended.2.1 (fun _ => C4env) [] ⟨1000, [("SOL", C1pos)]⟩
    [("ADA", holdDecision none)] 3 (by simp [getMaxPositionsForCycle])).1

/-- Environment for the C3 failing input: 4h price 95 below EMA20 100 (so a buy
is counter-trend and the classified trend is bearish), 3m price 100 above EMA20
99, normal volume, fresh trend record (so recent_flip is true), neutral bias
stats for both sides. -/
def C3env : EntryEnv :=
  { marketRegime := .neutralRegime, volumeQualityScore := 0,
    biasLong := some ⟨0, 0⟩, biasShort := some ⟨0, 0⟩,
    indicators3m := ⟨false, some 100, some 99, 100, 100, 50, 0, 0⟩,
    indicators4h := ⟨false, some 95, some 100, 0, 1, 50, 0, 0⟩,
    prevTrend := none, cycleNumber := 10,
    enhanceShort := false, stopLossMultiplier := 1 }

/-- Counter-trend buy with confidence 0.5 for the C3 failing input. -/
def C3dec : Decision := ⟨.buyToEnter, some 10, some (1/2), none, none, none⟩

/-- C3 (code bug): the counter-trend gate is unreachable for counter-trend
entries.  apply_directional_bias reads Config.DIRECTIONAL_NEUTRAL_CONFIDENCE_MODIFIER
and Config.DIRECTIONAL_CONFLICT_CONFIDENCE_MODIFIER, which do not exist in
src/TradeSeeker/config.py; a counter-trend entry always has a neutral or
conflicting trend, so the call raises AttributeError, the blanket handler at
line 1893 "allows the trade", and the confidence floor / flip cooldown /
3-of-5 validation at lines 1843-1864 are skipped.  At this concrete input a
counter-trend buy with confidence 0.5 < 0.75 and recent_flip = true is opened
anyway, contradicting the claim (which matches the clear intent of lines
1843-1864). -/
theorem C3_counter_trend_gate_bypassed :
    executeEntry C3env [] [] 1000 "SOL" C3dec 100 =
      .opened 820 { symbol := "SOL", direction := .long, quantity := 18, entryPrice := 100,
                    currentPrice := 100, unrealizedPnl := 0, notionalUsd := 1800, marginUsd := 180,
                    leverage := 10, confidence := 1/2, lossCycleCount := 0,
                    exitPlan := { profitTarget := none, stopLoss := none } } ∧
    isCounterTrendTrade C3dec.signal C3env.indicators3m C3env.indicators4h = true ∧
    (updateTrendState C3env.prevTrend C3env.cycleNumber C3env.indicators4h
        C3env.indicators3m).recentFlip = true ∧
    ((1 : ℚ)/2 < 3/4) = True ∧
    applyDirectionalBias C3dec.signal (1/2) C3env.biasLong
        (updateTrendState C3env.prevTrend C3env.cycleNumber C3env.indicators4h
          C3env.indicators3m).trend = .error () := by
  refine ⟨?_, ?_, ?_, by norm_num, ?_⟩
  · norm_num [executeEntry, finalizeEntry, C3env, C3dec, normalizeConfidence,
      normalizeLeverage, volumePenalty, volumeRatioOf, updateTrendState, applyDirectionalBias,
      isCounterTrendTrade, trendFollowingAdjust, trendAligned, calculateConfidenceBasedMargin,
      marketRegimeMultiplier, dominantDirection, entryDirection, countPositionsByDirection,
      shouldEnterTrade, checkPortfolioDiversification, calculatePortfolioRisk, totalNotional,
      totalMargin, adjustNotionalByConfidence, maxPortfolioRisk, MIN_CONFIDENCE,
      MIN_POSITION_MARGIN_USD, MAX_LEVERAGE, EMA_NEUTRAL_BAND_PCT, INTRADAY_NEUTRAL_RSI_HIGH,
      INTRADAY_NEUTRAL_RSI_LOW, TREND_FLIP_COOLDOWN, abs_of_nonneg, abs_of_nonpos]
  · norm_num [isCounterTrendTrade, C3env, C3dec]
  · norm_num [updateTrendState, C3env, EMA_NEUTRAL_BAND_PCT, INTRADAY_NEUTRAL_RSI_HIGH,
      INTRADAY_NEUTRAL_RSI_LOW, TREND_FLIP_COOLDOWN, abs_of_nonneg, abs_of_nonpos]
  · norm_num [applyDirectionalBias, updateTrendState, C3env, C3dec, EMA_NEUTRAL_BAND_PCT,
      INTRADAY_NEUTRAL_RSI_HIGH, INTRADAY_NEUTRAL_RSI_LOW, TREND_FLIP_COOLDOWN,
      abs_of_nonneg, abs_of_nonpos]

/-- Environment for the C5 counterexample: bullish market, trend-aligned buy
(4h 110 ≥ EMA 100, 3m 102 ≥ EMA 100), volume ratio 0.6. -/
def C5env : EntryEnv :=
  { marketRegime := .bullishRegime, volumeQualityScore := 0,
    biasLong := some ⟨0, 0⟩, biasShort := some ⟨0, 0⟩,
    indicators3m := ⟨false, some 102, some 100, 60, 100, 50, 0, 0⟩,
    indicators4h := ⟨false, some 110, some 100, 0, 1, 50, 0, 0⟩,
    prevTrend := some ⟨.bullish, 0⟩, cycleNumber := 10,
    enhanceShort := false, stopLossMultiplier := 1 }

/-- Trend-aligned buy with confidence 0.7 for the C5 counterexample. -/
def C5dec : Decision := ⟨.buyToEnter, some 10, some (7/10), none, none, none⟩

/-- C5 counterexample: at volume ratio 0.6 ∈ [0.5, 0.8) the entry is marked
for partial margin (margin 150 = 0.5 × 300) AND its confidence is boosted
from 0.70 to 0.75 — the boost is not exclusive to the ratio ≥ 0.8 branch as
the claim states. -/
theorem C5_counterexample :
    executeEntry C5env [] [] 1000 "ADA" C5dec 100 =
      .opened 850 { symbol := "ADA", direction := .long, quantity := 15, entryPrice := 100,
                    currentPrice := 100, unrealizedPnl := 0, notionalUsd := 1500, marginUsd := 150,
                    leverage := 10, confidence := 3/4, lossCycleCount := 0,
                    exitPlan := { profitTarget := none, stopLoss := none } } ∧
    volumeRatioOf C5env.indicators3m = 3/5 ∧
    trendAligned C5dec.signal C5env.indicators3m C5env.indicators4h = true ∧
    ((3 : ℚ)/5 < 4/5) = True ∧
    (3 : ℚ)/4 = 7/10 + 5/100 := by
  refine ⟨?_, by norm_num [volumeRatioOf, C5env], by norm_num [trendAligned, C5env, C5dec],
    by norm_num, by norm_num⟩
  norm_num [executeEntry, finalizeEntry, C5env, C5dec, normalizeConfidence,
    normalizeLeverage, volumePenalty, volumeRatioOf, updateTrendState, applyDirectionalBias,
    isCounterTrendTrade, trendFollowingAdjust, trendAligned, calculateConfidenceBasedMargin,
    marketRegimeMultiplier, dominantDirection, entryDirection, countPositionsByDirection,
    shouldEnterTrade, checkPortfolioDiversification, calculatePortfolioRisk, totalNotional,
    totalMargin, adjustNotionalByConfidence, maxPortfolioRisk, MIN_CONFIDENCE,
    MIN_POSITION_MARGIN_USD, MAX_LEVERAGE, EMA_NEUTRAL_BAND_PCT, INTRADAY_NEUTRAL_RSI_HIGH,
    INTRADAY_NEUTRAL_RSI_LOW, TREND_FLIP_COOLDOWN, abs_of_nonneg, abs_of_nonpos]

/-- C5 (amended): on the trend-following path (aligned and volume ratio ≥ 0.5)
the partial-margin factor is 0.5 exactly when 0.5 ≤ ratio < 0.8 (else 1), and
the confidence boost +0.05 (clamped to 1) applies on BOTH subpaths, not only
when ratio ≥ 0.8. -/
theorem C5_trend_following_amended :
    ∀ (signal : Signal) (i3 i4 : Ind) (r c : ℚ),
      trendAligned signal i3 i4 = true → 1/2 ≤ r → c ≤ 1 →
      trendFollowingAdjust signal i3 i4 r c =
        (min 1 (c + 5/100), if r < 4/5 then (1/2 : ℚ) else 1) := by
  intro signal i3 i4 r c halign hr hc
  unfold trendFollowingAdjust
  rw [halign]
  dsimp only
  rw [if_pos hr]
  rcases lt_or_eq_of_le hc with hlt | heq
  · have hgt : min 1 (c + 5/100) > c := lt_min hlt (by linarith)
    rw [if_pos hgt]
    simp
  · subst heq
    have h1 : min (1 : ℚ) (1 + 5/100) = 1 := min_eq_left (by linarith)
    rw [h1, if_neg (lt_irrefl (1 : ℚ))]
    simp

/-- C5 witness: the amended trend-following rule applied at volume ratio 0.6
and confidence 0.7 yields confidence 0.75 with partial-margin factor 0.5. -/
theorem C5_trend_following_amended_witness :
    trendAligned Signal.buyToEnter C5env.indicators3m C5env.indicators4h = true ∧
    ((1 : ℚ)/2 ≤ 3/5) = True ∧ ((7 : ℚ)/10 ≤ 1) = True ∧
    trendFollowingAdjust Signal.buyToEnter C5env.indicators3m C5env.indicators4h (3/5) (7/10) =
      (min 1 (7/10 + 5/100), if (3 : ℚ)/5 < 4/5 then (1/2 : ℚ) else 1) := by
  refine ⟨by norm_num [trendAligned, C5env], by norm_num, by norm_num, ?_⟩
  exact C5_trend_following_amended Signal.buyToEnter C5env.indicators3m C5env.indicators4h
    (3/5) (7/10) (by norm_num [trendAligned, C5env]) (by norm_num) (by norm_num)

/-- Environment for the C6 counterexample: volume ratio exactly 0.30
(volume 30, avg 100), trend-aligned bullish context with ratio below 0.5 so no
trend-following adjustment interferes. -/
def C6env : EntryEnv :=
  { marketRegime := .neutralRegime, volumeQualityScore := 0,
    biasLong := some ⟨0, 0⟩, biasShort := some ⟨0, 0⟩,
    indicators3m := ⟨false, some 105, some 100, 30, 100, 50, 0, 0⟩,
    indicators4h := ⟨false, some 110, some 100, 0, 1, 50, 0, 0⟩,
    prevTrend := some ⟨.bullish, 0⟩, cycleNumber := 10,
    enhanceShort := false, stopLossMultiplier := 1 }

/-- Buy with confidence 0.5 for the C6 counterexample. -/
def C6dec : Decision := ⟨.buyToEnter, some 10, some (1/2), none, none, none⟩

/-- Same environment with volume 20 (ratio 0.2) for the C6 witness. -/
def C6wEnv : EntryEnv :=
  { C6env with indicators3m := ⟨false, some 105, some 100, 20, 100, 50, 0, 0⟩ }

/-- C6 counterexample: at volume ratio exactly 0.30 the code applies NO
penalty (the test at line 1810 is strict <) and opens the entry with
confidence 0.5; under the claim's "≤ 0.30" the confidence would have become
0.35 < MIN_CONFIDENCE and the entry would have been vetoed. -/
theorem C6_counterexample :
    executeEntry C6env [] [] 1000 "XRP" C6dec 100 =
      .opened 820 { symbol := "XRP", direction := .long, quantity := 18, entryPrice := 100,
                    currentPrice := 100, unrealizedPnl := 0, notionalUsd := 1800, marginUsd := 180,
                    leverage := 10, confidence := 1/2, lossCycleCount := 0,
                    exitPlan := { profitTarget := none, stopLoss := none } } ∧
    volumeRatioOf C6env.indicators3m = 3/10 ∧
    ((1 : ℚ)/2 * (7/10) < MIN_CONFIDENCE) = True := by
  refine ⟨?_, by norm_num [volumeRatioOf, C6env], by norm_num [MIN_CONFIDENCE]⟩
  norm_num [executeEntry, finalizeEntry, C6env, C6dec, normalizeConfidence,
    normalizeLeverage, volumePenalty, volumeRatioOf, updateTrendState, applyDirectionalBias,
    isCounterTrendTrade, trendFollowingAdjust, trendAligned, calculateConfidenceBasedMargin,
    marketRegimeMultiplier, dominantDirection, entryDirection, countPositionsByDirection,
    shouldEnterTrade, checkPortfolioDiversification, calculatePortfolioRisk, totalNotional,
    totalMargin, adjustNotionalByConfidence, maxPortfolioRisk, MIN_CONFIDENCE,
    MIN_POSITION_MARGIN_USD, MAX_LEVERAGE, EMA_NEUTRAL_BAND_PCT, INTRADAY_NEUTRAL_RSI_HIGH,
    INTRADAY_NEUTRAL_RSI_LOW, TREND_FLIP_COOLDOWN, abs_of_nonneg, abs_of_nonpos]

/-- C6 (amended): the low-volume penalty fires only for volume ratio
strictly below 0.30: at exactly 0.30 no penalty applies; below 0.30 the
confidence is multiplied by 0.7 and the entry is vetoed when the result drops
below MIN_CONFIDENCE (0.4), including at the full pipeline level. -/
theorem C6_volume_penalty_amended :
    (∀ c : ℚ, volumePenalty c (3/10) = some c) ∧
    (∀ c r : ℚ, r < 3/10 →
        volumePenalty c r =
          if c * (7/10) < MIN_CONFIDENCE then none else some (c * (7/10))) ∧
    (∀ c r : ℚ, 3/10 ≤ r → volumePenalty c r = some c) ∧
    (∀ (env : EntryEnv) (positions : List (String × Position)) (prices : List (String × ℚ))
       (balance : ℚ) (coin : String) (d : Decision) (price : ℚ),
       (env.indicators3m.hasError || env.indicators4h.hasError) = false →
       ¬ (dominantDirection env.marketRegime = some (entryDirection d.signal) ∧
          countPositionsByDirection positions (entryDirection d.signal) ≥ 4) →
       volumeRatioOf env.indicators3m < 3/10 →
       min 1 (normalizeConfidence d.confidence + env.volumeQualityScore / 1000) * (7/10) <
         MIN_CONFIDENCE →
       executeEntry env positions prices balance coin d price = .vetoed .lowVolume) := by
  refine ⟨?_, ?_, ?_, ?_⟩
  · intro c
    unfold volumePenalty
    rw [if_neg (by norm_num : ¬ ((3 : ℚ)/10 < 3/10))]
  · intro c r hr
    unfold volumePenalty
    rw [if_pos hr]
  · intro c r hr
    unfold volumePenalty
    rw [if_neg (by linarith : ¬ (r < 3/10))]
  · intro env positions prices balance coin d price herr hdom hr hlow
    unfold executeEntry
    dsimp only
    rw [if_neg hdom]
    rw [if_neg (by simp [herr] :
      ¬ ((env.indicators3m.hasError || env.indicators4h.hasError) = true))]
    have hpen : volumePenalty
        (min 1 (normalizeConfidence d.confidence + env.volumeQualityScore / 1000))
        (volumeRatioOf env.indicators3m) = none := by
      unfold volumePenalty
      rw [if_pos hr, if_pos hlow]
    rw [hpen]

/-- C6 witness: the amended penalty rule applied at ratio 0.30 (no penalty),
ratio 0.20 (penalty formula), ratio 1 (no penalty), and the full pipeline at
ratio 0.20 with confidence 0.5 (vetoed for low volume). -/
theorem C6_volume_penalty_amended_witness :
    volumePenalty (1/2) (3/10) = some (1/2) ∧
    volumePenalty (1/2) (1/5) =
      (if (1 : ℚ)/2 * (7/10) < MIN_CONFIDENCE then none else some ((1/2) * (7/10))) ∧
    volumePenalty (1/2) 1 = some (1/2) ∧
    executeEntry C6wEnv [] [] 1000 "XRP" C6dec 100 = .vetoed .lowVolume := by
  refine ⟨C6_volume_penalty_amended.1 (1/2), C6_volume_penalty_amended.2.1 (1/2) (1/5) (by norm_num),
    C6_volume_penalty_amended.2.2.1 (1/2) 1 (by norm_num), ?_⟩
  exact C6_volume_penalty_amended.2.2.2 C6wEnv [] [] 1000 "XRP" C6dec 100
    (by norm_num [C6wEnv, C6env])
    (by simp [C6wEnv, C6env, dominantDirection, entryDirection, C6dec])
    (by norm_num [C6wEnv, C6env, volumeRatioOf])
    (by norm_num [C6dec, normalizeConfidence, MIN_CONFIDENCE, C6wEnv, C6env])

/- ===================== C7: LLM failure/fallback ladder ===================== -/

/-- A cached cycle whose decisions map holds one entry signal. -/
def C7entryDec : Decision := ⟨.sellToEnter, some 5, some (3/5), none, none, none⟩

/-- A one-cycle history whose single record contains an entry signal. -/
def C7hist : List CycleRecord := [⟨[("SOL", C7entryDec)]⟩]

/-- A one-cycle history whose single record contains only a hold. -/
def C7histHold : List CycleRecord := [⟨[("ADA", holdDecision none)]⟩]

/-- An older cycle record with an entry signal. -/
def C7recOld : CycleRecord := ⟨[("ADA", C7entryDec)]⟩

/-- A second entry decision, for the most recent cycle. -/
def C7entryDec2 : Decision := ⟨.buyToEnter, some 3, some (1/2), none, none, none⟩

/-- A newer cycle record with an entry signal. -/
def C7recNew : CycleRecord := ⟨[("SOL", C7entryDec2)]⟩

/-- A newer cycle record containing only a hold (no entry signal). -/
def C7recHold : CycleRecord := ⟨[("XRP", holdDecision none)]⟩

/-- A history (stored oldest first) whose two cycles both carry entry
signals. -/
def C7hist2 : List CycleRecord := [C7recOld, C7recNew]

/-- A history whose most recent cycle has only a hold, while the older one
carries an entry signal. -/
def C7hist3 : List CycleRecord := [C7recOld, C7recHold]

/-- find? returns the marked element when everything before it fails the
test. -/
theorem find?_prepend_failing {α} (q : α → Bool) (c : α) (hq : q c = true) :
    ∀ (pre post : List α), (∀ x ∈ pre, q x = false) →
      (pre ++ c :: post).find? q = some c := by
  intro pre
  induction pre with
  | nil =>
    intro post _
    simp [List.find?, hq]
  | cons x xs ih =>
    intro post hpre
    have hx : q x = false := hpre x (by simp)
    have hxs : ∀ y ∈ xs, q y = false := fun y hy => hpre y (by simp [hy])
    simp only [List.cons_append, List.find?, hx]
    exact ih post hxs

/-- C7 counterexample: on a response parse error, parse_ai_response (lines
3242-3261) returns decisions = {} — the empty map, in which no coin is mapped
to anything — not the all-hold safe-mode map the claim describes (which maps
every coin to a safe-mode hold, as the third conjunct shows for XRP). -/
theorem C7_counterexample :
    parseAiDecisions none [] = [] ∧
    (List.lookup ("XRP") ([] : List (String × Decision))) = none ∧
    safeHoldDecisions.lookup ("XRP") =
      some (holdDecision (some ("Safe mode: Holding due to API error"))) := by
  exact ⟨rfl, rfl, rfl⟩

/-- C7 (corrected): the fallback ladder as the code implements it.
(1) An error whose message contains "Connection" or "Timeout" routes to the
cycle cache; (2) any other error message routes to the all-hold safe-mode map;
(3) every safe-mode entry is a hold with the safe-mode justification;
(4) the cycle cache reuses the decisions of the MOST RECENT qualifying cycle
among the last five: whenever the last five cycles (most recent first) split
as pre ++ c :: post with every cycle in pre failing the test (empty decisions
or no entry signal) and c passing it, the cache returns exactly c's
decisions; (5) if none of the last five qualifies, the cache returns the
safe-mode map; (6) but a response parse error yields the empty decisions map,
not the all-hold map. -/
theorem C7_fallback_amended :
    (∀ (msg : String) (h : List CycleRecord),
        (strContains msg ("Connection") || strContains msg ("Timeout")) = true →
        getErrorResponse msg h = getCachedDecisions h) ∧
    (∀ (msg : String) (h : List CycleRecord),
        (strContains msg ("Connection") || strContains msg ("Timeout")) = false →
        getErrorResponse msg h = safeHoldDecisions) ∧
    (∀ cd ∈ safeHoldDecisions,
        cd.2.signal = Signal.holdSignal ∧
        cd.2.justification = some ("Safe mode: Holding due to API error")) ∧
    (∀ (h : List CycleRecord) (pre : List CycleRecord) (c : CycleRecord)
        (post : List CycleRecord),
        h.reverse.take 5 = pre ++ c :: post →
        (∀ c' ∈ pre, (!c'.decisions.isEmpty && hasEntrySignal c'.decisions) = false) →
        (!c.decisions.isEmpty && hasEntrySignal c.decisions) = true →
        getCachedDecisions h = c.decisions) ∧
    (∀ h : List CycleRecord,
        (∀ c ∈ (h.reverse.take 5),
            (!c.decisions.isEmpty && hasEntrySignal c.decisions) = false) →
        getCachedDecisions h = safeHoldDecisions) ∧
    (∀ ps : List (String × Position), parseAiDecisions none ps = []) := by
  refine ⟨?_, ?_, ?_, ?_, ?_, ?_⟩
  · intro msg h hc
    unfold getErrorResponse
    rw [if_pos hc]
  · intro msg h hc
    unfold getErrorResponse
    rw [if_neg (by simp [hc])]
  · intro cd hcd
    fin_cases hcd <;> exact ⟨rfl, rfl⟩
  · intro h pre c post hsplit hpre hq
    have hne : h.isEmpty = false := by
      cases h with
      | nil =>
        have hlen := congrArg List.length hsplit
        simp only [List.reverse_nil, List.take_nil, List.length_nil,
          List.length_append, List.length_cons] at hlen
        exact absurd hlen (by omega)
      | cons a as => rfl
    unfold getCachedDecisions
    rw [if_neg (by simp [hne])]
    have hf : (h.reverse.take 5).find?
        (fun c => !c.decisions.isEmpty && hasEntrySignal c.decisions) = some c := by
      rw [hsplit]
      exact find?_prepend_failing _ c hq pre post hpre
    rw [hf]
  · intro h hall
    unfold getCachedDecisions
    split_ifs with he
    · rfl
    · have hf : (h.reverse.take 5).find?
          (fun c => !c.decisions.isEmpty && hasEntrySignal c.decisions) = none := by
        rw [List.find?_eq_none]
        intro c hc
        simp [hall c hc]
      rw [hf]
  · intro ps; rfl

/-- C7 witness: a "Timeout" error reuses the cache, and with both cycles
carrying entry signals the cache concretely returns the NEWER cycle's
decisions; when the most recent cycle is hold-only, the cache skips it and
reuses the older entry-bearing cycle's decisions; a parse-style error message
gets the safe-mode map, the XRP safe-mode entry is a justified hold, an
all-hold history falls back to safe mode, and a parse error gives the empty
map. -/
theorem C7_fallback_amended_witness :
    getErrorResponse ("API Timeout") C7hist2 = getCachedDecisions C7hist2 ∧
    getCachedDecisions C7hist2 = [("SOL", C7entryDec2)] ∧
    hasEntrySignal C7recOld.decisions = true ∧
    getCachedDecisions C7hist3 = [("ADA", C7entryDec)] ∧
    hasEntrySignal C7recHold.decisions = false ∧
    getErrorResponse ("invalid json response") C7hist2 = safeHoldDecisions ∧
    ((holdDecision (some ("Safe mode: Holding due to API error"))).signal =
        Signal.holdSignal) ∧
    getCachedDecisions C7histHold = safeHoldDecisions ∧
    parseAiDecisions none [] = [] := by
  refine ⟨C7_fallback_amended.1 ("API Timeout") C7hist2 (by decide),
    C7_fallback_amended.2.2.2.1 C7hist2 [] C7recNew [C7recOld] rfl (by simp) (by decide),
    by decide,
    C7_fallback_amended.2.2.2.1 C7hist3 [C7recHold] C7recOld [] rfl (by decide) (by decide),
    by decide,
    C7_fallback_amended.2.1 ("invalid json response") C7hist2 (by decide),
    (C7_fallback_amended.2.2.1
      ("XRP", holdDecision (some ("Safe mode: Holding due to API error")))
      (by decide)).1,
    C7_fallback_amended.2.2.2.2.1 C7histHold (by decide),
    C7_fallback_amended.2.2.2.2.2 []⟩

/- ===================== C8: concentration gate ===================== -/

/-- What a passing diversification check actually guarantees: every open
position's margin is at most a quarter of the hardcoded 200.0 reference (not
of current_balance + total margin), and fewer than 6 positions are open. -/
theorem checkDiversification_true_spec (positions : List (String × Position))
    (symbol : String)
    (hdiv : checkPortfolioDiversification positions symbol = true)
    (hne : positions.isEmpty = false) (hpos : 0 < totalNotional positions) :
    (∀ p ∈ positions, p.2.marginUsd ≤ 200 * (1/4)) ∧ positions.length < 6 := by
  unfold checkPortfolioDiversification at hdiv
  rw [if_neg (by simp [hne])] at hdiv
  rw [if_neg (by linarith : ¬ (totalNotional positions ≤ 0))] at hdiv
  dsimp only at hdiv
  have hdtb : (200 : ℚ) - totalMargin positions + totalMargin positions = 200 := by ring
  rw [hdtb] at hdiv
  rw [if_neg (by norm_num : ¬ ((200 : ℚ) ≤ 0))] at hdiv
  by_cases hany :
      positions.any (fun p => decide (p.2.marginUsd / 200 > 1/4)) = true
  · rw [if_pos hany] at hdiv
    exact absurd hdiv (by simp)
  · rw [if_neg hany] at hdiv
    by_cases hlen : positions.length ≥ 6
    · rw [if_pos hlen] at hdiv
      exact absurd hdiv (by simp)
    · refine ⟨?_, Nat.lt_of_not_le hlen⟩
      intro p hp
      have hnot : ¬ (p.2.marginUsd / 200 > 1/4) := by
        intro hgt
        exact hany (List.any_eq_true.mpr ⟨p, hp, decide_eq_true hgt⟩)
      push_neg at hnot
      linarith

/-- The existing ETH position of the C8 counterexample: margin 40 on a 450
notional. -/
def C8pos : Position :=
  ⟨"ETH", .long, 9/2, 100, 100, 0, 450, 40, 10, 1/2, 0, ⟨none, none⟩⟩

/-- The existing ETH position of the C8 witness: margin 30 on a 300 notional. -/
def C8posW : Position :=
  ⟨"ETH", .long, 3, 100, 100, 0, 300, 30, 10, 1/2, 0, ⟨none, none⟩⟩

/-- C8 counterexample: with current_balance 60 and one open position of margin
40, the claimed gate bound is 25% of (60 + 40) = 25, which the position's
margin 40 exceeds — yet should_enter_trade accepts the new trade, because
check_portfolio_diversification measures concentration against a hardcoded
total_balance of 200.0 (so 40/200 = 0.2 ≤ 0.25), and never checks the
prospective position at all. -/
theorem C8_counterexample :
    (shouldEnterTrade ("BTC") [("ETH", C8pos)] [("ETH", 100)] (1/2) 50 60
      none none none).shouldEnter = true ∧
    C8pos.marginUsd > (60 + totalMargin [("ETH", C8pos)]) * (1/4) := by
  constructor
  · norm_num [shouldEnterTrade, checkPortfolioDiversification,
      calculatePortfolioRisk, totalNotional, totalMargin,
      adjustNotionalByConfidence, maxPortfolioRisk, C8pos, List.lookup,
      List.any_cons, List.any_nil, decide_eq_true_eq]
  · norm_num [C8pos, totalMargin]

/-- C8 (corrected): what the pre-trade gate actually enforces when
should_enter_trade accepts (with no AI risk figure and no explicit limits).
Concentration is measured per existing position against the hardcoded 200.0
reference (margin ≤ 200·0.25), never against current_balance + Σ margin and
never for the prospective position; separately, total margin plus the
proposed margin (notional/10) must stay within 90% of current_balance, and
the proposed margin within 25% of current_balance. -/
theorem C8_concentration_amended :
    ∀ (symbol : String) (positions : List (String × Position))
      (prices : List (String × ℚ)) (confidence proposedNotional currentBalance : ℚ),
      (shouldEnterTrade symbol positions prices confidence proposedNotional
        currentBalance none none none).shouldEnter = true →
      ((positions.isEmpty = false ∧ 0 < totalNotional positions) →
        (∀ p ∈ positions, p.2.marginUsd ≤ 200 * (1/4)) ∧ positions.length < 6) ∧
      totalMargin positions + proposedNotional / 10 ≤ currentBalance * (9/10) ∧
      proposedNotional / 10 ≤ currentBalance * (1/4) := by
  intro symbol positions prices confidence proposedNotional currentBalance hacc
  unfold shouldEnterTrade at hacc
  dsimp only [Option.getD] at hacc
  split_ifs at hacc with h1 h2 h3 h4
  all_goals try simp only [RiskDecision.mk.injEq] at hacc
  all_goals try exact absurd hacc.1 Bool.false_ne_true
  push_neg at h3 h4
  refine ⟨?_, h3, h4⟩
  intro ⟨hne, hpos⟩
  have hdiv : checkPortfolioDiversification positions symbol = true := by
    cases hcd : checkPortfolioDiversification positions symbol
    · exact absurd hcd h1
    · rfl
  exact checkDiversification_true_spec positions symbol hdiv hne hpos

/-- C8 witness: a concrete accepted trade (balance 200, one ETH position of
margin 30, proposed notional 100) satisfies every amended gate bound. -/
theorem C8_concentration_amended_witness :
    (shouldEnterTrade ("BTC") [("ETH", C8posW)] [("ETH", 100)] (1/2) 100 200
      none none none).shouldEnter = true ∧
    C8posW.marginUsd ≤ 200 * (1/4) ∧
    totalMargin [("ETH", C8posW)] + 100 / 10 ≤ 200 * (9/10) ∧
    (100 : ℚ) / 10 ≤ 200 * (1/4) := by
  have hacc : (shouldEnterTrade ("BTC") [("ETH", C8posW)] [("ETH", 100)]
      (1/2) 100 200 none none none).shouldEnter = true := by
    norm_num [shouldEnterTrade, checkPortfolioDiversification,
      calculatePortfolioRisk, totalNotional, totalMargin,
      adjustNotionalByConfidence, maxPortfolioRisk, C8posW, List.lookup,
      List.any_cons, List.any_nil, decide_eq_true_eq]
  have h := C8_concentration_amended ("BTC") [("ETH", C8posW)] [("ETH", 100)]
    (1/2) 100 200 hacc
  refine ⟨hacc, ?_, h.2.1, h.2.2⟩
  exact (h.1 ⟨rfl, by norm_num [totalNotional, C8posW]⟩).1 ("ETH", C8posW) (by simp)

/- ===================== C9: round-trip persistence ===================== -/

/-- Every document has positive parser-fuel size. -/
theorem sizeVal_pos (v : JsonValue) : 1 ≤ sizeVal v := by
  cases v with
  | null => simp [sizeVal]
  | boolean b => simp [sizeVal]
  | num n => simp [sizeVal]
  | str s => simp [sizeVal]
  | arr es => cases es <;> simp [sizeVal]
  | obj fs => cases fs <;> simp [sizeVal]

/-- Element tails have positive parser-fuel size. -/
theorem sizeElems_pos (es : JsonElems) : 1 ≤ sizeElems es := by
  cases es <;> simp [sizeElems]

/-- Field tails have positive parser-fuel size. -/
theorem sizeFields_pos (fs : JsonFields) : 1 ≤ sizeFields fs := by
  cases fs <;> simp [sizeFields]

/-- The serialization of a value never starts with a closing bracket
(so the empty-array test inside the parser cannot misfire on it). -/
theorem dumpVal_ne_rbrack (v : JsonValue) (rest : List Tok) :
    ¬ ((dumpVal v ++ rest).head? = some Tok.rbrack) := by
  cases v with
  | null => simp [dumpVal]
  | boolean b => cases b <;> simp [dumpVal]
  | num n => cases n <;> simp [dumpVal]
  | str s => simp [dumpVal]
  | arr es => cases es <;> simp [dumpVal]
  | obj fs => cases fs <;> simp [dumpVal]

/-- Token-level round trip, fuel-indexed: parsing a dumped value (with any
trailing tokens) returns exactly that value, for any fuel at least its size. -/
theorem parse_dump (f : ℕ) :
    (∀ (v : JsonValue) (rest : List Tok), sizeVal v ≤ f →
      parseVal f (dumpVal v ++ rest) = some (v, rest)) ∧
    (∀ (es : JsonElems) (rest : List Tok), sizeElems es ≤ f →
      parseElemsTail f (dumpElemsTail es ++ rest) = some (es, rest)) ∧
    (∀ (fs : JsonFields) (rest : List Tok), sizeFields fs ≤ f →
      parseFieldsTail f (dumpFieldsTail fs ++ rest) = some (fs, rest)) := by
  induction f with
  | zero =>
    refine ⟨fun v rest h => absurd h ?_, fun es rest h => absurd h ?_,
      fun fs rest h => absurd h ?_⟩
    · have := sizeVal_pos v; omega
    · have := sizeElems_pos es; omega
    · have := sizeFields_pos fs; omega
  | succ f ih =>
    refine ⟨?_, ?_, ?_⟩
    · intro v rest h
      cases v with
      | null => simp [dumpVal, parseVal]
      | boolean b => cases b <;> simp [dumpVal, parseVal]
      | num n => cases n <;> simp [dumpVal, parseVal]
      | str s => simp [dumpVal, parseVal]
      | arr es =>
        cases es with
        | nil => simp [dumpVal, parseVal]
        | cons v tl =>
          have h1 : sizeVal v ≤ f := by simp [sizeVal] at h; omega
          have h2 : sizeElems tl ≤ f := by simp [sizeVal] at h; omega
          simp only [dumpVal, List.cons_append, List.append_eq, List.append_assoc, parseVal]
          rw [if_neg (dumpVal_ne_rbrack v _)]
          simp [ih.1 v _ h1, ih.2.1 tl rest h2]
      | obj fs =>
        cases fs with
        | nil => simp [dumpVal, parseVal]
        | cons k v tl =>
          have h1 : sizeVal v ≤ f := by simp [sizeVal] at h; omega
          have h2 : sizeFields tl ≤ f := by simp [sizeVal] at h; omega
          simp only [dumpVal, List.cons_append, List.append_eq, List.append_assoc, parseVal]
          simp [ih.1 v _ h1, ih.2.2 tl rest h2]
    · intro es rest h
      cases es with
      | nil => simp [dumpElemsTail, parseElemsTail]
      | cons v tl =>
        have h1 : sizeVal v ≤ f := by simp [sizeElems] at h; omega
        have h2 : sizeElems tl ≤ f := by simp [sizeElems] at h; omega
        simp only [dumpElemsTail, List.cons_append, List.append_eq, List.append_assoc, parseElemsTail]
        simp [ih.1 v _ h1, ih.2.1 tl rest h2]
    · intro fs rest h
      cases fs with
      | nil => simp [dumpFieldsTail, parseFieldsTail]
      | cons k v tl =>
        have h1 : sizeVal v ≤ f := by simp [sizeFields] at h; omega
        have h2 : sizeFields tl ≤ f := by simp [sizeFields] at h; omega
        simp only [dumpFieldsTail, List.cons_append, List.append_eq, List.append_assoc, parseFieldsTail]
        simp [ih.1 v _ h1, ih.2.2 tl rest h2]

mutual

/-- Fuel bound: the size of a value is at most twice its token length. -/
theorem sizeVal_le_dump : ∀ (v : JsonValue), sizeVal v ≤ 2 * (dumpVal v).length
  | .null => by simp [sizeVal, dumpVal]
  | .boolean b => by cases b <;> simp [sizeVal, dumpVal]
  | .num n => by cases n <;> simp [sizeVal, dumpVal]
  | .str s => by simp [sizeVal, dumpVal]
  | .arr .nil => by simp [sizeVal, dumpVal]
  | .arr (.cons v tl) => by
    have h1 := sizeVal_le_dump v
    have h2 := sizeElems_le_dump tl
    simp only [sizeVal, dumpVal, List.length_cons, List.length_append]
    omega
  | .obj .nil => by simp [sizeVal, dumpVal]
  | .obj (.cons k v tl) => by
    have h1 := sizeVal_le_dump v
    have h2 := sizeFields_le_dump tl
    simp only [sizeVal, dumpVal, List.length_cons, List.length_append]
    omega

/-- Fuel bound for element tails. -/
theorem sizeElems_le_dump : ∀ (es : JsonElems), sizeElems es ≤ 2 * (dumpElemsTail es).length
  | .nil => by simp [sizeElems, dumpElemsTail]
  | .cons v tl => by
    have h1 := sizeVal_le_dump v
    have h2 := sizeElems_le_dump tl
    simp only [sizeElems, dumpElemsTail, List.length_cons, List.length_append]
    omega

/-- Fuel bound for field tails. -/
theorem sizeFields_le_dump : ∀ (fs : JsonFields), sizeFields fs ≤ 2 * (dumpFieldsTail fs).length
  | .nil => by simp [sizeFields, dumpFieldsTail]
  | .cons k v tl => by
    have h1 := sizeVal_le_dump v
    have h2 := sizeFields_le_dump tl
    simp only [sizeFields, dumpFieldsTail, List.length_cons, List.length_append]
    omega

end

/-- A safe_file_write followed by safe_file_read returns the document:
the fixed fuel 2*length+2 suffices and no tokens are left over. -/
theorem safeFileRead_write (v : JsonValue) (d : JsonValue) :
    safeFileRead (safeFileWrite v) d = v := by
  unfold safeFileRead safeFileWrite
  have hf := (parse_dump (2 * (dumpVal v).length + 2)).1 v []
    (by have := sizeVal_le_dump v; omega)
  rw [List.append_nil] at hf
  rw [hf]

/-- C9 counterexample: json.dump is called with its default allow_nan=True
(utils.py line 187), so a NaN value is persisted as the token NaN — not as
null as the claim requires — and reading the file back returns NaN, not null. -/
theorem C9_counterexample :
    safeFileWrite (.num .nan) = [Tok.tnan] ∧
    safeFileWrite .null = [Tok.tnull] ∧
    safeFileRead (safeFileWrite (.num .nan)) .null = .num .nan :=
  ⟨rfl, rfl, rfl⟩

/-- C9 (corrected): the round trip itself is exact — reloading a written
document returns it unchanged (stated for documents whose objects have
pairwise-distinct keys, where the token model is faithful to json.loads) —
but NaN and the infinities are serialized as the tokens NaN / Infinity /
-Infinity, never as null. -/
theorem C9_round_trip_amended :
    (∀ (v d : JsonValue), uniqKeysVal v = true →
        safeFileRead (safeFileWrite v) d = v) ∧
    safeFileWrite (.num .nan) = [Tok.tnan] ∧
    safeFileWrite (.num .inf) = [Tok.tinf] ∧
    safeFileWrite (.num .neginf) = [Tok.tneginf] :=
  ⟨fun v d _ => safeFileRead_write v d, rfl, rfl, rfl⟩

/-- A concrete portfolio-like document with a NaN field, a nested array and
distinct keys. -/
def C9doc : JsonValue :=
  .obj (.cons ("balance") (.num (.fin (375/2)))
    (.cons ("peak_equity") (.num .nan)
      (.cons ("positions") (.arr (.cons (.str ("BTC")) .nil)) .nil)))

/-- C9 witness: the amended round trip holds for the concrete document. -/
theorem C9_round_trip_amended_witness :
    uniqKeysVal C9doc = true ∧
    safeFileRead (safeFileWrite C9doc) .null = C9doc := by
  refine ⟨by decide, C9_round_trip_amended.1 C9doc .null (by decide)⟩
